import Mathlib

/-!
Verification of the output VT parser engine
(`src/terminal/parser/OutputStateMachineEngine.cpp`).

The engine is embedded shallowly:

* wide characters and `size_t` parameters are `Nat`;
* a `wstring_view` is a `List Nat` of its code units;
* the polymorphic Dispatch Target (`ITermDispatch`) is a trace: every
  call an action makes on `_dispatch` is recorded as a `DCall` value, and
  the dispatcher's success result is an arbitrary function
  `DCall → Bool` held by the engine;
* the optional flush-to-terminal callback `_pfnFlushToTerminal` is
  `Option Bool` (`none` = null pointer, `some b` = configured and
  returning `b`), the optional TTY connection `_pTtyConnection` is
  `Option (List Nat → Bool)` (the success of `WriteTerminalW`);
* a fallible C++ routine with out-parameters becomes a function into
  `Option` of its outputs;
* iterators into a `wstring_view` become the list of remaining
  characters, and a bounded `for` loop becomes recursion on the explicit
  iteration count.  A read one past the end of a view (which the parsing
  loops can perform before their own bounds check fires) yields the NUL
  sentinel `0`, which is neither a hex digit, a decimal digit, `'/'` nor
  `';'`, exactly like the terminating NUL that backs the engine's
  buffers.

Each dispatch action returns an `ActResult`: the Dispatch Target calls
it made in order, whether the flush-to-terminal callback was invoked,
the new value of `_lastPrintedChar`, and the action's boolean result.
-/

set_option maxRecDepth 4000
set_option maxHeartbeats 1000000
set_option linter.unusedVariables false

namespace Terminal

/- ASCII control characters (`ascii.hpp`, outside the excerpt; the
values are the universal ASCII codes the names denote, several of which
the spec's glossary states, e.g. BEL = 0x07). -/
namespace AsciiChars

@[simp]
def NUL : Nat := 0x00

@[simp]
def BEL : Nat := 0x07

@[simp]
def BS : Nat := 0x08

@[simp]
def TAB : Nat := 0x09

@[simp]
def LF : Nat := 0x0A

@[simp]
def VT : Nat := 0x0B

@[simp]
def FF : Nat := 0x0C

@[simp]
def CR : Nat := 0x0D

@[simp]
def SO : Nat := 0x0E

@[simp]
def SI : Nat := 0x0F

@[simp]
def SPC : Nat := 0x20

end AsciiChars

/-- Line feed flavours (`DispatchTypes::LineFeedType`). -/
inductive LineFeedType where
  | DependsOnMode
  | WithReturn
  | WithoutReturn
deriving DecidableEq, Repr

/- Modelled from the spec: the enum values of `DispatchTypes` live in a
header outside the excerpt.  Erase types are the standard ED/EL
parameter values 0-3 (`ToEnd`, `FromBeginning`, `All`, `Scrollback`),
DSR status types the standard DSR parameters 5 (operating status) and
6 (cursor position report), window manipulation types the DTTERM values
7 (refresh) and 8 (resize in characters), DECANM the private mode 2,
and the 94-charset designators the VTID of their final byte. -/
namespace DispatchTypes

@[simp]
def ToEnd : Nat := 0

@[simp]
def FromBeginning : Nat := 1

@[simp]
def All : Nat := 2

@[simp]
def Scrollback : Nat := 3

@[simp]
def OS_OperatingStatus : Nat := 5

@[simp]
def CPR_CursorPositionReport : Nat := 6

@[simp]
def RefreshWindow : Nat := 7

@[simp]
def ResizeWindowInCharacters : Nat := 8

@[simp]
def DECANM_AnsiMode : Nat := 2

@[simp]
def DecSpecialGraphics : Nat := 0x30

@[simp]
def ASCII : Nat := 0x42

end DispatchTypes

/-- Modelled from the spec: the `Default*` constants of
`OutputStateMachineEngine.hpp` (outside the excerpt).  The spec's
parameter table and the .cpp's own comments fix them: distances, tab
distances and repeat counts default to 1, lines and columns to 1,
margins to 0, the tab clear type to 0, the graphics option to the
default rendition, the cursor style and window manipulation type to
their enums' zero value. -/
@[simp]
def DefaultCursorDistance : Nat := 1

@[simp]
def DefaultScrollDistance : Nat := 1

@[simp]
def DefaultLine : Nat := 1

@[simp]
def DefaultColumn : Nat := 1

@[simp]
def DefaultTopMargin : Nat := 0

@[simp]
def DefaultBottomMargin : Nat := 0

@[simp]
def DefaultTabDistance : Nat := 1

@[simp]
def DefaultTabClearType : Nat := 0

@[simp]
def DefaultRepeatCount : Nat := 1

@[simp]
def DefaultGraphicsOption : Nat := 0

@[simp]
def DefaultCursorStyle : Nat := 0

@[simp]
def DefaultWindowManipulationType : Nat := 0

/- Modelled from the spec: VTIDs (header outside the excerpt).  Per the
spec's design notes a VTID packs the sequence's intermediates plus final
byte into a little-endian integer, so `id[0]` is `id % 256` and
`id.SubSequence(1)` is `id / 256`.  The action-code enums below spell the
packed values of the bytes their names already state (e.g. CUU's final
is `A`, DECSET is `? h`, DECALN is `# 8`). -/
namespace CsiActionCodes

@[simp]
def ICH_InsertCharacter : Nat := 0x40

@[simp]
def CUU_CursorUp : Nat := 0x41

@[simp]
def CUD_CursorDown : Nat := 0x42

@[simp]
def CUF_CursorForward : Nat := 0x43

@[simp]
def CUB_CursorBackward : Nat := 0x44

@[simp]
def CNL_CursorNextLine : Nat := 0x45

@[simp]
def CPL_CursorPrevLine : Nat := 0x46

@[simp]
def CHA_CursorHorizontalAbsolute : Nat := 0x47

@[simp]
def CUP_CursorPosition : Nat := 0x48

@[simp]
def CHT_CursorForwardTab : Nat := 0x49

@[simp]
def ED_EraseDisplay : Nat := 0x4A

@[simp]
def EL_EraseLine : Nat := 0x4B

@[simp]
def IL_InsertLine : Nat := 0x4C

@[simp]
def DL_DeleteLine : Nat := 0x4D

@[simp]
def DCH_DeleteCharacter : Nat := 0x50

@[simp]
def SU_ScrollUp : Nat := 0x53

@[simp]
def SD_ScrollDown : Nat := 0x54

@[simp]
def ECH_EraseCharacters : Nat := 0x58

@[simp]
def CBT_CursorBackTab : Nat := 0x5A

@[simp]
def HPA_HorizontalPositionAbsolute : Nat := 0x60

@[simp]
def HPR_HorizontalPositionRelative : Nat := 0x61

@[simp]
def REP_RepeatCharacter : Nat := 0x62

@[simp]
def DA_DeviceAttributes : Nat := 0x63

@[simp]
def DA2_SecondaryDeviceAttributes : Nat := 0x633E

@[simp]
def DA3_TertiaryDeviceAttributes : Nat := 0x633D

@[simp]
def VPA_VerticalLinePositionAbsolute : Nat := 0x64

@[simp]
def VPR_VerticalPositionRelative : Nat := 0x65

@[simp]
def HVP_HorizontalVerticalPosition : Nat := 0x66

@[simp]
def TBC_TabClear : Nat := 0x67

@[simp]
def DECSET_PrivateModeSet : Nat := 0x683F

@[simp]
def DECRST_PrivateModeReset : Nat := 0x6C3F

@[simp]
def SGR_SetGraphicsRendition : Nat := 0x6D

@[simp]
def DSR_DeviceStatusReport : Nat := 0x6E

@[simp]
def DECSTBM_SetScrollingRegion : Nat := 0x72

@[simp]
def ANSISYSSC_CursorSave : Nat := 0x73

@[simp]
def DTTERM_WindowManipulation : Nat := 0x74

@[simp]
def ANSISYSRC_CursorRestore : Nat := 0x75

@[simp]
def DECSCUSR_SetCursorStyle : Nat := 0x7120

@[simp]
def DECSTR_SoftReset : Nat := 0x7021

end CsiActionCodes

/- Modelled from the spec: the `EscActionCodes` enum (header outside
the excerpt), VTIDs of the finals the spec names. -/
namespace EscActionCodes

@[simp]
def ST_StringTerminator : Nat := 0x5C

@[simp]
def DECSC_CursorSave : Nat := 0x37

@[simp]
def DECRC_CursorRestore : Nat := 0x38

@[simp]
def DECKPAM_KeypadApplicationMode : Nat := 0x3D

@[simp]
def DECKPNM_KeypadNumericMode : Nat := 0x3E

@[simp]
def IND_Index : Nat := 0x44

@[simp]
def NEL_NextLine : Nat := 0x45

@[simp]
def HTS_HorizontalTabSet : Nat := 0x48

@[simp]
def RI_ReverseLineFeed : Nat := 0x4D

@[simp]
def SS2_SingleShift : Nat := 0x4E

@[simp]
def SS3_SingleShift : Nat := 0x4F

@[simp]
def DECALN_ScreenAlignmentPattern : Nat := 0x3823

@[simp]
def RIS_ResetToInitialState : Nat := 0x63

@[simp]
def LS2_LockingShift : Nat := 0x6E

@[simp]
def LS3_LockingShift : Nat := 0x6F

@[simp]
def LS1R_LockingShift : Nat := 0x7E

@[simp]
def LS2R_LockingShift : Nat := 0x7D

@[simp]
def LS3R_LockingShift : Nat := 0x7C

end EscActionCodes

/- Modelled from the spec: the `Vt52ActionCodes` enum (header outside
the excerpt), VTIDs of the single finals of the VT52 repertoire. -/
namespace Vt52ActionCodes

@[simp]
def CursorUp : Nat := 0x41

@[simp]
def CursorDown : Nat := 0x42

@[simp]
def CursorRight : Nat := 0x43

@[simp]
def CursorLeft : Nat := 0x44

@[simp]
def EnterGraphicsMode : Nat := 0x46

@[simp]
def ExitGraphicsMode : Nat := 0x47

@[simp]
def CursorToHome : Nat := 0x48

@[simp]
def ReverseLineFeed : Nat := 0x49

@[simp]
def EraseToEndOfScreen : Nat := 0x4A

@[simp]
def EraseToEndOfLine : Nat := 0x4B

@[simp]
def DirectCursorAddress : Nat := 0x59

@[simp]
def Identify : Nat := 0x5A

@[simp]
def EnterAlternateKeypadMode : Nat := 0x3D

@[simp]
def ExitAlternateKeypadMode : Nat := 0x3E

@[simp]
def ExitVt52Mode : Nat := 0x3C

end Vt52ActionCodes

/- Modelled from the spec: the `OscActionCodes` enum (header outside
the excerpt); the spec's OSC section lists exactly these parameter
codes. -/
namespace OscActionCodes

@[simp]
def SetIconAndWindowTitle : Nat := 0

@[simp]
def SetWindowIcon : Nat := 1

@[simp]
def SetWindowTitle : Nat := 2

@[simp]
def SetColor : Nat := 4

@[simp]
def Hyperlink : Nat := 8

@[simp]
def SetForegroundColor : Nat := 10

@[simp]
def SetBackgroundColor : Nat := 11

@[simp]
def SetCursorColor : Nat := 12

@[simp]
def SetClipboard : Nat := 52

@[simp]
def ResetCursorColor : Nat := 112

end OscActionCodes

/-- One call on the Dispatch Target (`ITermDispatch`), with the
arguments the engine passes. -/
inductive DCall where
  | WarningBell
  | CursorBackward (n : Nat)
  | ForwardTab (n : Nat)
  | CarriageReturn
  | LineFeed (t : LineFeedType)
  | LockingShift (g : Nat)
  | Print (wch : Nat)
  | PrintString (s : List Nat)
  | CursorSaveState
  | CursorRestoreState
  | SetKeypadMode (b : Bool)
  | ReverseLineFeed
  | HorizontalTabSet
  | HardReset
  | SingleShift (g : Nat)
  | LockingShiftRight (g : Nat)
  | ScreenAlignmentPattern
  | DesignateCodingSystem (p : Nat)
  | Designate94Charset (g p : Nat)
  | Designate96Charset (g p : Nat)
  | CursorUp (n : Nat)
  | CursorDown (n : Nat)
  | CursorForward (n : Nat)
  | CursorNextLine (n : Nat)
  | CursorPrevLine (n : Nat)
  | CursorHorizontalPositionAbsolute (n : Nat)
  | VerticalLinePositionAbsolute (n : Nat)
  | HorizontalPositionRelative (n : Nat)
  | VerticalPositionRelative (n : Nat)
  | CursorPosition (line col : Nat)
  | SetTopBottomScrollingMargins (top bottom : Nat)
  | InsertCharacter (n : Nat)
  | DeleteCharacter (n : Nat)
  | EraseInDisplay (t : Nat)
  | EraseInLine (t : Nat)
  | SetPrivateModes (ps : List Nat)
  | ResetPrivateModes (ps : List Nat)
  | SetGraphicsRendition (opts : List Nat)
  | DeviceStatusReport (t : Nat)
  | DeviceAttributes
  | SecondaryDeviceAttributes
  | TertiaryDeviceAttributes
  | ScrollUp (n : Nat)
  | ScrollDown (n : Nat)
  | InsertLine (n : Nat)
  | DeleteLine (n : Nat)
  | BackwardsTab (n : Nat)
  | TabClear (t : Nat)
  | EraseCharacters (n : Nat)
  | WindowManipulation (f : Nat) (params : List Nat)
  | SetCursorStyle (s : Nat)
  | SoftReset
  | Vt52DeviceAttributes
  | SetWindowTitle (title : List Nat)
  | SetColorTableEntry (tableIndex color : Nat)
  | SetDefaultForeground (color : Nat)
  | SetDefaultBackground (color : Nat)
  | SetCursorColor (color : Nat)
  | SetClipboard (content : List Nat)
  | EndHyperlink
  | AddHyperlink (uri params : List Nat)
deriving Repr

/-- The engine's configuration and mutable state: the Dispatch Target's
success function, `_pfnFlushToTerminal`, `_pTtyConnection` and
`_lastPrintedChar`. -/
structure Engine where
  dispatch : DCall → Bool
  pfnFlushToTerminal : Option Bool
  pTtyConnection : Option (List Nat → Bool)
  lastPrintedChar : Nat

/-- What one dispatch action did: the Dispatch Target calls in order,
whether `_pfnFlushToTerminal` was invoked, the new `_lastPrintedChar`,
and the returned boolean. -/
structure ActResult where
  calls : List DCall
  flushed : Bool
  lastPrintedChar : Nat
  ret : Bool
deriving Repr

/-- Make one Dispatch Target call and take its result as `success`. -/
def call1 (e : Engine) (c : DCall) : List DCall × Bool := ([c], e.dispatch c)

/-- Whether the trailing
`if (_pfnFlushToTerminal != nullptr && !success) …` of a dispatch action
invokes the callback. -/
def flushTriggered (e : Engine) (success : Bool) : Bool :=
  e.pfnFlushToTerminal.isSome && !success

/-- The `success` value after that trailing fallback block. -/
def flushResult (e : Engine) (success : Bool) : Bool :=
  if e.pfnFlushToTerminal.isSome && !success then e.pfnFlushToTerminal.getD false
  else success

/-- `OutputStateMachineEngine::ActionExecute`: C0 controls.  The BEL arm
additionally invokes the flush callback when one is configured; every
Dispatch Target result is discarded and the action returns true after
clearing the last printed character. -/
def ActionExecute (e : Engine) (wch : Nat) : ActResult :=
  let cs : List DCall × Bool :=
    if wch = AsciiChars.NUL then ([], false)
    else if wch = AsciiChars.BEL then ([DCall.WarningBell], e.pfnFlushToTerminal.isSome)
    else if wch = AsciiChars.BS then ([DCall.CursorBackward 1], false)
    else if wch = AsciiChars.TAB then ([DCall.ForwardTab 1], false)
    else if wch = AsciiChars.CR then ([DCall.CarriageReturn], false)
    else if wch = AsciiChars.LF ∨ wch = AsciiChars.FF ∨ wch = AsciiChars.VT then
      ([DCall.LineFeed LineFeedType.DependsOnMode], false)
    else if wch = AsciiChars.SI then ([DCall.LockingShift 0], false)
    else if wch = AsciiChars.SO then ([DCall.LockingShift 1], false)
    else ([DCall.Print wch], false)
  { calls := cs.1, flushed := cs.2, lastPrintedChar := AsciiChars.NUL, ret := true }

/-- `ActionExecuteFromEscape` forwards to `ActionExecute` unchanged. -/
def ActionExecuteFromEscape (e : Engine) (wch : Nat) : ActResult :=
  ActionExecute e wch

/-- `ActionPrint`: stash the character as the last printed character
when it is graphical (`≥ SPC`), dispatch `Print`, return true. -/
def ActionPrint (e : Engine) (wch : Nat) : ActResult :=
  { calls := [DCall.Print wch],
    flushed := false,
    lastPrintedChar := if AsciiChars.SPC ≤ wch then wch else e.lastPrintedChar,
    ret := true }

/-- `ActionPrintString`: an empty string is a no-op; otherwise stash the
final character when graphical and dispatch `PrintString`. -/
def ActionPrintString (e : Engine) (s : List Nat) : ActResult :=
  if s.isEmpty then
    { calls := [], flushed := false, lastPrintedChar := e.lastPrintedChar, ret := true }
  else
    let wch := s.getLastD 0
    { calls := [DCall.PrintString s],
      flushed := false,
      lastPrintedChar := if AsciiChars.SPC ≤ wch then wch else e.lastPrintedChar,
      ret := true }

/-- `ActionPassThroughString`: write to the TTY connection when one is
attached, else eat the string; the last printed character is left as it
was (this action has no `_ClearLastChar()` call). -/
def ActionPassThroughString (e : Engine) (s : List Nat) : ActResult :=
  let success :=
    match e.pTtyConnection with
    | some write => write s
    | none => true
  { calls := [], flushed := false, lastPrintedChar := e.lastPrintedChar, ret := success }

/-- The switch body of `ActionEscDispatch`: the recognised simple escape
sequences, then the charset-designation families keyed on the VTID's
first byte, else failure. -/
def escAction (e : Engine) (id : Nat) : List DCall × Bool :=
  if id = EscActionCodes.ST_StringTerminator then ([], true)
  else if id = EscActionCodes.DECSC_CursorSave then call1 e DCall.CursorSaveState
  else if id = EscActionCodes.DECRC_CursorRestore then call1 e DCall.CursorRestoreState
  else if id = EscActionCodes.DECKPAM_KeypadApplicationMode then
    call1 e (DCall.SetKeypadMode true)
  else if id = EscActionCodes.DECKPNM_KeypadNumericMode then
    call1 e (DCall.SetKeypadMode false)
  else if id = EscActionCodes.NEL_NextLine then
    call1 e (DCall.LineFeed LineFeedType.WithReturn)
  else if id = EscActionCodes.IND_Index then
    call1 e (DCall.LineFeed LineFeedType.WithoutReturn)
  else if id = EscActionCodes.RI_ReverseLineFeed then call1 e DCall.ReverseLineFeed
  else if id = EscActionCodes.HTS_HorizontalTabSet then call1 e DCall.HorizontalTabSet
  else if id = EscActionCodes.RIS_ResetToInitialState then call1 e DCall.HardReset
  else if id = EscActionCodes.SS2_SingleShift then call1 e (DCall.SingleShift 2)
  else if id = EscActionCodes.SS3_SingleShift then call1 e (DCall.SingleShift 3)
  else if id = EscActionCodes.LS2_LockingShift then call1 e (DCall.LockingShift 2)
  else if id = EscActionCodes.LS3_LockingShift then call1 e (DCall.LockingShift 3)
  else if id = EscActionCodes.LS1R_LockingShift then call1 e (DCall.LockingShiftRight 1)
  else if id = EscActionCodes.LS2R_LockingShift then call1 e (DCall.LockingShiftRight 2)
  else if id = EscActionCodes.LS3R_LockingShift then call1 e (DCall.LockingShiftRight 3)
  else if id = EscActionCodes.DECALN_ScreenAlignmentPattern then
    call1 e DCall.ScreenAlignmentPattern
  else if id % 256 = 0x25 then call1 e (DCall.DesignateCodingSystem (id / 256))
  else if id % 256 = 0x28 then call1 e (DCall.Designate94Charset 0 (id / 256))
  else if id % 256 = 0x29 then call1 e (DCall.Designate94Charset 1 (id / 256))
  else if id % 256 = 0x2A then call1 e (DCall.Designate94Charset 2 (id / 256))
  else if id % 256 = 0x2B then call1 e (DCall.Designate94Charset 3 (id / 256))
  else if id % 256 = 0x2D then call1 e (DCall.Designate96Charset 1 (id / 256))
  else if id % 256 = 0x2E then call1 e (DCall.Designate96Charset 2 (id / 256))
  else if id % 256 = 0x2F then call1 e (DCall.Designate96Charset 3 (id / 256))
  else ([], false)

/-- The VTIDs `escAction` handles (used to state the unknown-VTID
fallback property). -/
def knownEscId (id : Nat) : Prop :=
  id = EscActionCodes.ST_StringTerminator ∨
  id = EscActionCodes.DECSC_CursorSave ∨
  id = EscActionCodes.DECRC_CursorRestore ∨
  id = EscActionCodes.DECKPAM_KeypadApplicationMode ∨
  id = EscActionCodes.DECKPNM_KeypadNumericMode ∨
  id = EscActionCodes.NEL_NextLine ∨
  id = EscActionCodes.IND_Index ∨
  id = EscActionCodes.RI_ReverseLineFeed ∨
  id = EscActionCodes.HTS_HorizontalTabSet ∨
  id = EscActionCodes.RIS_ResetToInitialState ∨
  id = EscActionCodes.SS2_SingleShift ∨
  id = EscActionCodes.SS3_SingleShift ∨
  id = EscActionCodes.LS2_LockingShift ∨
  id = EscActionCodes.LS3_LockingShift ∨
  id = EscActionCodes.LS1R_LockingShift ∨
  id = EscActionCodes.LS2R_LockingShift ∨
  id = EscActionCodes.LS3R_LockingShift ∨
  id = EscActionCodes.DECALN_ScreenAlignmentPattern ∨
  id % 256 = 0x25 ∨ id % 256 = 0x28 ∨ id % 256 = 0x29 ∨ id % 256 = 0x2A ∨
  id % 256 = 0x2B ∨ id % 256 = 0x2D ∨ id % 256 = 0x2E ∨ id % 256 = 0x2F

/-- `ActionEscDispatch`: run the switch, then the flush-to-terminal
fallback, then clear the last printed character. -/
def ActionEscDispatch (e : Engine) (id : Nat) : ActResult :=
  let cs := escAction e id
  { calls := cs.1,
    flushed := flushTriggered e cs.2,
    lastPrintedChar := AsciiChars.NUL,
    ret := flushResult e cs.2 }

/-- VT52 direct cursor addressing computes `param - ' ' + 1` in
`size_t`, so values below 31 wrap around 2^64. -/
def vt52Coord (p : Nat) : Nat := (p + 2 ^ 64 - 31) % 2 ^ 64

/-- The switch body of `ActionVt52EscDispatch`.  For
`DirectCursorAddress` the C++ reads `gsl::at(parameters, 0/1)`; the
state machine always supplies those two parameters, and the model reads
them with default 0 (where the C++ would instead fail fast, not
return). -/
def vt52Action (e : Engine) (id : Nat) (parameters : List Nat) : List DCall × Bool :=
  if id = Vt52ActionCodes.CursorUp then call1 e (DCall.CursorUp 1)
  else if id = Vt52ActionCodes.CursorDown then call1 e (DCall.CursorDown 1)
  else if id = Vt52ActionCodes.CursorRight then call1 e (DCall.CursorForward 1)
  else if id = Vt52ActionCodes.CursorLeft then call1 e (DCall.CursorBackward 1)
  else if id = Vt52ActionCodes.EnterGraphicsMode then
    call1 e (DCall.Designate94Charset 0 DispatchTypes.DecSpecialGraphics)
  else if id = Vt52ActionCodes.ExitGraphicsMode then
    call1 e (DCall.Designate94Charset 0 DispatchTypes.ASCII)
  else if id = Vt52ActionCodes.CursorToHome then call1 e (DCall.CursorPosition 1 1)
  else if id = Vt52ActionCodes.ReverseLineFeed then call1 e DCall.ReverseLineFeed
  else if id = Vt52ActionCodes.EraseToEndOfScreen then
    call1 e (DCall.EraseInDisplay DispatchTypes.ToEnd)
  else if id = Vt52ActionCodes.EraseToEndOfLine then
    call1 e (DCall.EraseInLine DispatchTypes.ToEnd)
  else if id = Vt52ActionCodes.DirectCursorAddress then
    call1 e (DCall.CursorPosition (vt52Coord (parameters.getD 0 0))
      (vt52Coord (parameters.getD 1 0)))
  else if id = Vt52ActionCodes.Identify then call1 e DCall.Vt52DeviceAttributes
  else if id = Vt52ActionCodes.EnterAlternateKeypadMode then
    call1 e (DCall.SetKeypadMode true)
  else if id = Vt52ActionCodes.ExitAlternateKeypadMode then
    call1 e (DCall.SetKeypadMode false)
  else if id = Vt52ActionCodes.ExitVt52Mode then
    call1 e (DCall.SetPrivateModes [DispatchTypes.DECANM_AnsiMode])
  else ([], false)

/-- `ActionVt52EscDispatch`: no flush-to-terminal fallback here; clear
the last printed character and return the switch's result. -/
def ActionVt52EscDispatch (e : Engine) (id : Nat) (parameters : List Nat) : ActResult :=
  let cs := vt52Action e id parameters
  { calls := cs.1,
    flushed := false,
    lastPrintedChar := AsciiChars.NUL,
    ret := cs.2 }

/-- `ActionSs3Dispatch`: the output engine handles no SS3 sequences. -/
def ActionSs3Dispatch (e : Engine) (wch : Nat) (parameters : List Nat) : ActResult :=
  { calls := [], flushed := false, lastPrintedChar := AsciiChars.NUL, ret := false }

/-- `_GetCursorDistance`: 0 or 1 parameters, default 1, a 0 becomes 1. -/
def _GetCursorDistance (parameters : List Nat) : Option Nat :=
  match parameters with
  | [] => some DefaultCursorDistance
  | [p] => some (if p = 0 then DefaultCursorDistance else p)
  | _ => none

/-- `_GetScrollDistance`: 0 or 1 parameters, default 1, a 0 becomes 1. -/
def _GetScrollDistance (parameters : List Nat) : Option Nat :=
  match parameters with
  | [] => some DefaultScrollDistance
  | [p] => some (if p = 0 then DefaultScrollDistance else p)
  | _ => none

/-- `_GetTabDistance`: 0 or 1 parameters, default 1, a 0 becomes 1. -/
def _GetTabDistance (parameters : List Nat) : Option Nat :=
  match parameters with
  | [] => some DefaultTabDistance
  | [p] => some (if p = 0 then DefaultTabDistance else p)
  | _ => none

/-- `_GetRepeatCount`: 0 or 1 parameters, default 1, a 0 becomes 1. -/
def _GetRepeatCount (parameters : List Nat) : Option Nat :=
  match parameters with
  | [] => some DefaultRepeatCount
  | [p] => some (if p = 0 then DefaultRepeatCount else p)
  | _ => none

/-- `_GetXYPosition`: 0, 1 or 2 parameters; defaults 1, 1; any 0 becomes
1 in its axis. -/
def _GetXYPosition (parameters : List Nat) : Option (Nat × Nat) :=
  match parameters with
  | [] => some (DefaultLine, DefaultColumn)
  | [l] => some (if l = 0 then DefaultLine else l, DefaultColumn)
  | [l, c] => some (if l = 0 then DefaultLine else l, if c = 0 then DefaultColumn else c)
  | _ => none

/-- `_GetTopBottomMargins`: 0, 1 or 2 parameters with defaults 0, 0,
then reject a positive bottom margin below the top margin. -/
def _GetTopBottomMargins (parameters : List Nat) : Option (Nat × Nat) :=
  match parameters with
  | [] => some (DefaultTopMargin, DefaultBottomMargin)
  | [t] => some (t, DefaultBottomMargin)
  | [t, b] => if 0 < b ∧ b < t then none else some (t, b)
  | _ => none

/-- `_GetEraseOperation`: 0 or 1 parameters; an explicit value must be
one of the four erase types. -/
def _GetEraseOperation (parameters : List Nat) : Option Nat :=
  match parameters with
  | [] => some DispatchTypes.ToEnd
  | [p] =>
    if p = DispatchTypes.ToEnd ∨ p = DispatchTypes.FromBeginning ∨
        p = DispatchTypes.All ∨ p = DispatchTypes.Scrollback then some p
    else none
  | _ => none

/-- `_GetPrivateModeParams`: at least one parameter, passed through. -/
def _GetPrivateModeParams (parameters : List Nat) : Option (List Nat) :=
  if 0 < parameters.length then some parameters else none

/-- `_GetGraphicsOptions`: an empty list becomes the single default
option, anything else is passed through; this helper always succeeds
(its own flush-fallback block is dead code). -/
def _GetGraphicsOptions (parameters : List Nat) : Option (List Nat) :=
  some (if parameters.isEmpty then [DefaultGraphicsOption] else parameters)

/-- `_GetDeviceStatusOperation`: exactly one parameter, which must be
OS or CPR. -/
def _GetDeviceStatusOperation (parameters : List Nat) : Option Nat :=
  match parameters with
  | [p] =>
    if p = DispatchTypes.OS_OperatingStatus then some DispatchTypes.OS_OperatingStatus
    else if p = DispatchTypes.CPR_CursorPositionReport then
      some DispatchTypes.CPR_CursorPositionReport
    else none
  | _ => none

/-- `_VerifyHasNoParameters`. -/
def _VerifyHasNoParameters (parameters : List Nat) : Bool := parameters.isEmpty

/-- `_VerifyDeviceAttributesParams`: no parameters, or a single 0. -/
def _VerifyDeviceAttributesParams (parameters : List Nat) : Bool :=
  match parameters with
  | [] => true
  | [p] => p == 0
  | _ => false

/-- `_GetTabClearType`: 0 or 1 parameters, default 0, no coercion. -/
def _GetTabClearType (parameters : List Nat) : Option Nat :=
  match parameters with
  | [] => some DefaultTabClearType
  | [p] => some p
  | _ => none

/-- `_GetWindowManipulationType`: at least one parameter whose first
value is refresh or resize-in-characters. -/
def _GetWindowManipulationType (parameters : List Nat) : Option Nat :=
  match parameters with
  | [] => none
  | p :: _ =>
    if p = DispatchTypes.RefreshWindow then some DispatchTypes.RefreshWindow
    else if p = DispatchTypes.ResizeWindowInCharacters then
      some DispatchTypes.ResizeWindowInCharacters
    else none

/-- `_GetCursorStyle`: 0 or 1 parameters, default style. -/
def _GetCursorStyle (parameters : List Nat) : Option Nat :=
  match parameters with
  | [] => some DefaultCursorStyle
  | [p] => some p
  | _ => none

/-- The locals `ActionCsiDispatch` fills during parameter validation,
with the C++ initial values as defaults. -/
structure CsiArgs where
  distance : Nat := 0
  line : Nat := 0
  column : Nat := 0
  topMargin : Nat := 0
  bottomMargin : Nat := 0
  numTabs : Nat := 0
  clearType : Nat := 0
  function : Nat := 0
  eraseType : Nat := DispatchTypes.ToEnd
  privateModeParams : List Nat := []
  graphicsOptions : List Nat := []
  deviceStatusType : Nat := 0
  repeatCount : Nat := 0
  cursorStyle : Nat := DefaultCursorStyle
deriving Repr

/-- The first switch of `ActionCsiDispatch` (fill params): validate and
default the parameters the identifier needs; an identifier with no fill
case validates trivially. -/
def csiFill (id : Nat) (parameters : List Nat) : Option CsiArgs :=
  if id = CsiActionCodes.CUU_CursorUp ∨ id = CsiActionCodes.CUD_CursorDown ∨
      id = CsiActionCodes.CUF_CursorForward ∨ id = CsiActionCodes.CUB_CursorBackward ∨
      id = CsiActionCodes.CNL_CursorNextLine ∨ id = CsiActionCodes.CPL_CursorPrevLine ∨
      id = CsiActionCodes.CHA_CursorHorizontalAbsolute ∨
      id = CsiActionCodes.HPA_HorizontalPositionAbsolute ∨
      id = CsiActionCodes.VPA_VerticalLinePositionAbsolute ∨
      id = CsiActionCodes.HPR_HorizontalPositionRelative ∨
      id = CsiActionCodes.VPR_VerticalPositionRelative ∨
      id = CsiActionCodes.ICH_InsertCharacter ∨
      id = CsiActionCodes.DCH_DeleteCharacter ∨
      id = CsiActionCodes.ECH_EraseCharacters then
    (_GetCursorDistance parameters).map fun d => { distance := d }
  else if id = CsiActionCodes.HVP_HorizontalVerticalPosition ∨
      id = CsiActionCodes.CUP_CursorPosition then
    (_GetXYPosition parameters).map fun lc => { line := lc.1, column := lc.2 }
  else if id = CsiActionCodes.DECSTBM_SetScrollingRegion then
    (_GetTopBottomMargins parameters).map fun tb =>
      { topMargin := tb.1, bottomMargin := tb.2 }
  else if id = CsiActionCodes.ED_EraseDisplay ∨ id = CsiActionCodes.EL_EraseLine then
    (_GetEraseOperation parameters).map fun et => { eraseType := et }
  else if id = CsiActionCodes.DECSET_PrivateModeSet ∨
      id = CsiActionCodes.DECRST_PrivateModeReset then
    (_GetPrivateModeParams parameters).map fun pm => { privateModeParams := pm }
  else if id = CsiActionCodes.SGR_SetGraphicsRendition then
    (_GetGraphicsOptions parameters).map fun go => { graphicsOptions := go }
  else if id = CsiActionCodes.DSR_DeviceStatusReport then
    (_GetDeviceStatusOperation parameters).map fun st => { deviceStatusType := st }
  else if id = CsiActionCodes.DA_DeviceAttributes ∨
      id = CsiActionCodes.DA2_SecondaryDeviceAttributes ∨
      id = CsiActionCodes.DA3_TertiaryDeviceAttributes then
    if _VerifyDeviceAttributesParams parameters then some {} else none
  else if id = CsiActionCodes.SU_ScrollUp ∨ id = CsiActionCodes.SD_ScrollDown then
    (_GetScrollDistance parameters).map fun d => { distance := d }
  else if id = CsiActionCodes.ANSISYSSC_CursorSave ∨
      id = CsiActionCodes.ANSISYSRC_CursorRestore then
    if _VerifyHasNoParameters parameters then some {} else none
  else if id = CsiActionCodes.IL_InsertLine ∨ id = CsiActionCodes.DL_DeleteLine then
    (_GetScrollDistance parameters).map fun d => { distance := d }
  else if id = CsiActionCodes.CHT_CursorForwardTab ∨
      id = CsiActionCodes.CBT_CursorBackTab then
    (_GetTabDistance parameters).map fun d => { numTabs := d }
  else if id = CsiActionCodes.TBC_TabClear then
    (_GetTabClearType parameters).map fun ct => { clearType := ct }
  else if id = CsiActionCodes.DTTERM_WindowManipulation then
    (_GetWindowManipulationType parameters).map fun f => { function := f }
  else if id = CsiActionCodes.REP_RepeatCharacter then
    (_GetRepeatCount parameters).map fun rc => { repeatCount := rc }
  else if id = CsiActionCodes.DECSCUSR_SetCursorStyle then
    (_GetCursorStyle parameters).map fun cs => { cursorStyle := cs }
  else some {}

/-- The second switch of `ActionCsiDispatch` (dispatch): the semantic
Dispatch Target call for each identifier.  REP is handled inline: when a
graphical character was printed before, emit it `repeatCount` times via
`PrintString` and succeed regardless of the Dispatch Target; with no
prior graphical character do nothing and succeed. -/
def csiAction (e : Engine) (id : Nat) (a : CsiArgs) (remainingParams : List Nat) :
    List DCall × Bool :=
  if id = CsiActionCodes.CUU_CursorUp then call1 e (DCall.CursorUp a.distance)
  else if id = CsiActionCodes.CUD_CursorDown then call1 e (DCall.CursorDown a.distance)
  else if id = CsiActionCodes.CUF_CursorForward then
    call1 e (DCall.CursorForward a.distance)
  else if id = CsiActionCodes.CUB_CursorBackward then
    call1 e (DCall.CursorBackward a.distance)
  else if id = CsiActionCodes.CNL_CursorNextLine then
    call1 e (DCall.CursorNextLine a.distance)
  else if id = CsiActionCodes.CPL_CursorPrevLine then
    call1 e (DCall.CursorPrevLine a.distance)
  else if id = CsiActionCodes.CHA_CursorHorizontalAbsolute ∨
      id = CsiActionCodes.HPA_HorizontalPositionAbsolute then
    call1 e (DCall.CursorHorizontalPositionAbsolute a.distance)
  else if id = CsiActionCodes.VPA_VerticalLinePositionAbsolute then
    call1 e (DCall.VerticalLinePositionAbsolute a.distance)
  else if id = CsiActionCodes.HPR_HorizontalPositionRelative then
    call1 e (DCall.HorizontalPositionRelative a.distance)
  else if id = CsiActionCodes.VPR_VerticalPositionRelative then
    call1 e (DCall.VerticalPositionRelative a.distance)
  else if id = CsiActionCodes.CUP_CursorPosition ∨
      id = CsiActionCodes.HVP_HorizontalVerticalPosition then
    call1 e (DCall.CursorPosition a.line a.column)
  else if id = CsiActionCodes.DECSTBM_SetScrollingRegion then
    call1 e (DCall.SetTopBottomScrollingMargins a.topMargin a.bottomMargin)
  else if id = CsiActionCodes.ICH_InsertCharacter then
    call1 e (DCall.InsertCharacter a.distance)
  else if id = CsiActionCodes.DCH_DeleteCharacter then
    call1 e (DCall.DeleteCharacter a.distance)
  else if id = CsiActionCodes.ED_EraseDisplay then
    call1 e (DCall.EraseInDisplay a.eraseType)
  else if id = CsiActionCodes.EL_EraseLine then call1 e (DCall.EraseInLine a.eraseType)
  else if id = CsiActionCodes.DECSET_PrivateModeSet then
    call1 e (DCall.SetPrivateModes a.privateModeParams)
  else if id = CsiActionCodes.DECRST_PrivateModeReset then
    call1 e (DCall.ResetPrivateModes a.privateModeParams)
  else if id = CsiActionCodes.SGR_SetGraphicsRendition then
    call1 e (DCall.SetGraphicsRendition a.graphicsOptions)
  else if id = CsiActionCodes.DSR_DeviceStatusReport then
    call1 e (DCall.DeviceStatusReport a.deviceStatusType)
  else if id = CsiActionCodes.DA_DeviceAttributes then call1 e DCall.DeviceAttributes
  else if id = CsiActionCodes.DA2_SecondaryDeviceAttributes then
    call1 e DCall.SecondaryDeviceAttributes
  else if id = CsiActionCodes.DA3_TertiaryDeviceAttributes then
    call1 e DCall.TertiaryDeviceAttributes
  else if id = CsiActionCodes.SU_ScrollUp then call1 e (DCall.ScrollUp a.distance)
  else if id = CsiActionCodes.SD_ScrollDown then call1 e (DCall.ScrollDown a.distance)
  else if id = CsiActionCodes.ANSISYSSC_CursorSave then call1 e DCall.CursorSaveState
  else if id = CsiActionCodes.ANSISYSRC_CursorRestore then
    call1 e DCall.CursorRestoreState
  else if id = CsiActionCodes.IL_InsertLine then call1 e (DCall.InsertLine a.distance)
  else if id = CsiActionCodes.DL_DeleteLine then call1 e (DCall.DeleteLine a.distance)
  else if id = CsiActionCodes.CHT_CursorForwardTab then
    call1 e (DCall.ForwardTab a.numTabs)
  else if id = CsiActionCodes.CBT_CursorBackTab then
    call1 e (DCall.BackwardsTab a.numTabs)
  else if id = CsiActionCodes.TBC_TabClear then call1 e (DCall.TabClear a.clearType)
  else if id = CsiActionCodes.ECH_EraseCharacters then
    call1 e (DCall.EraseCharacters a.distance)
  else if id = CsiActionCodes.DTTERM_WindowManipulation then
    call1 e (DCall.WindowManipulation a.function remainingParams)
  else if id = CsiActionCodes.REP_RepeatCharacter then
    if e.lastPrintedChar ≠ AsciiChars.NUL then
      ([DCall.PrintString (List.replicate a.repeatCount e.lastPrintedChar)], true)
    else ([], true)
  else if id = CsiActionCodes.DECSCUSR_SetCursorStyle then
    call1 e (DCall.SetCursorStyle a.cursorStyle)
  else if id = CsiActionCodes.DECSTR_SoftReset then call1 e DCall.SoftReset
  else ([], false)

/-- The identifiers `ActionCsiDispatch`'s dispatch switch handles. -/
def knownCsiId (id : Nat) : Prop :=
  id = CsiActionCodes.CUU_CursorUp ∨ id = CsiActionCodes.CUD_CursorDown ∨
  id = CsiActionCodes.CUF_CursorForward ∨ id = CsiActionCodes.CUB_CursorBackward ∨
  id = CsiActionCodes.CNL_CursorNextLine ∨ id = CsiActionCodes.CPL_CursorPrevLine ∨
  id = CsiActionCodes.CHA_CursorHorizontalAbsolute ∨
  id = CsiActionCodes.HPA_HorizontalPositionAbsolute ∨
  id = CsiActionCodes.VPA_VerticalLinePositionAbsolute ∨
  id = CsiActionCodes.HPR_HorizontalPositionRelative ∨
  id = CsiActionCodes.VPR_VerticalPositionRelative ∨
  id = CsiActionCodes.CUP_CursorPosition ∨
  id = CsiActionCodes.HVP_HorizontalVerticalPosition ∨
  id = CsiActionCodes.DECSTBM_SetScrollingRegion ∨
  id = CsiActionCodes.ICH_InsertCharacter ∨ id = CsiActionCodes.DCH_DeleteCharacter ∨
  id = CsiActionCodes.ED_EraseDisplay ∨ id = CsiActionCodes.EL_EraseLine ∨
  id = CsiActionCodes.DECSET_PrivateModeSet ∨
  id = CsiActionCodes.DECRST_PrivateModeReset ∨
  id = CsiActionCodes.SGR_SetGraphicsRendition ∨
  id = CsiActionCodes.DSR_DeviceStatusReport ∨
  id = CsiActionCodes.DA_DeviceAttributes ∨
  id = CsiActionCodes.DA2_SecondaryDeviceAttributes ∨
  id = CsiActionCodes.DA3_TertiaryDeviceAttributes ∨
  id = CsiActionCodes.SU_ScrollUp ∨ id = CsiActionCodes.SD_ScrollDown ∨
  id = CsiActionCodes.ANSISYSSC_CursorSave ∨
  id = CsiActionCodes.ANSISYSRC_CursorRestore ∨
  id = CsiActionCodes.IL_InsertLine ∨ id = CsiActionCodes.DL_DeleteLine ∨
  id = CsiActionCodes.CHT_CursorForwardTab ∨ id = CsiActionCodes.CBT_CursorBackTab ∨
  id = CsiActionCodes.TBC_TabClear ∨ id = CsiActionCodes.ECH_EraseCharacters ∨
  id = CsiActionCodes.DTTERM_WindowManipulation ∨
  id = CsiActionCodes.REP_RepeatCharacter ∨
  id = CsiActionCodes.DECSCUSR_SetCursorStyle ∨ id = CsiActionCodes.DECSTR_SoftReset

/-- Both phases of `ActionCsiDispatch` before the fallback: a failed
validation skips the dispatch switch entirely. -/
def csiCore (e : Engine) (id : Nat) (parameters : List Nat) : List DCall × Bool :=
  match csiFill id parameters with
  | some a =>
    csiAction e id a (if 1 < parameters.length then parameters.drop 1 else [])
  | none => ([], false)

/-- `ActionCsiDispatch`: validate, dispatch, run the flush-to-terminal
fallback on failure, clear the last printed character. -/
def ActionCsiDispatch (e : Engine) (id : Nat) (parameters : List Nat) : ActResult :=
  let cs := csiCore e id parameters
  { calls := cs.1,
    flushed := flushTriggered e cs.2,
    lastPrintedChar := AsciiChars.NUL,
    ret := flushResult e cs.2 }

/-- `s_HexToUint`: the value of a hex digit, case insensitive. -/
def s_HexToUint (wch : Nat) : Option Nat :=
  if 0x30 ≤ wch ∧ wch ≤ 0x39 then some (wch - 0x30)
  else if 0x41 ≤ wch ∧ wch ≤ 0x46 then some (wch - 0x41 + 10)
  else if 0x61 ≤ wch ∧ wch ≤ 0x66 then some (wch - 0x61 + 10)
  else none

/-- `_isNumber`: a decimal digit. -/
def isNumber (wch : Nat) : Bool := (0x30 ≤ wch && wch ≤ 0x39)

/-- `_isHexNumber`: a hex digit, 0-9, A-F or a-f. -/
def isHexNumber (wch : Nat) : Bool :=
  (0x30 ≤ wch && wch ≤ 0x39) || (0x41 ≤ wch && wch ≤ 0x46) ||
    (0x61 ≤ wch && wch ≤ 0x66)

/-- The value of a hex digit as a total function (what `s_HexToUint`
writes to its out-parameter when it succeeds). -/
def hexDigitValue (wch : Nat) : Nat :=
  if wch ≤ 0x39 then wch - 0x30
  else if wch ≤ 0x46 then wch - 0x41 + 10
  else wch - 0x61 + 10

/-- The `RGB` macro: red in the low byte, green in the middle byte, blue
in the high byte. -/
def RGBw (r g b : Nat) : Nat := r + 256 * g + 65536 * b

/-- The inner `for (i = 0; i < 3; i++)` of `s_ParseColorSpec`, for one
colour component.  `rest` is what remains of the view at the iterator,
`value` the component accumulator.  The result is
`(foundColor, foundValidColorSpec, value, rest after the loop)`: a `/`
sets `foundColor`; a hex digit accumulates and, on the third (blue)
component at the end of the view, sets `foundValidColorSpec`; anything
else, like running out of the three iterations, leaves both false. -/
def parseCompLoop (component : Nat) : Nat → Nat → List Nat → Bool × Bool × Nat × List Nat
  | 0, value, rest => (false, false, value, rest)
  | fuel + 1, value, rest =>
    if isHexNumber (rest.headD 0) then
      match s_HexToUint (rest.headD 0) with
      | some intVal =>
        if component = 2 ∧ rest.tail.isEmpty then
          (false, true, value * 16 + intVal, rest.tail)
        else parseCompLoop component fuel (value * 16 + intVal) rest.tail
      | none => (false, false, value * 16, rest.tail)
    else if rest.headD 0 = 0x2F then (true, false, value, rest.tail)
    else (false, false, value, rest.tail)

/-- The outer `for (component = 0; component < 3; component++)` of
`s_ParseColorSpec`: run the inner loop per component, breaking when a
component did not end in `/` or the view is exhausted.  Returns
`foundValidColorSpec` and the component values filled so far (the C++
array slots never reached stay 0 and are only read on success, when all
three are filled). -/
def parseCompsLoop : Nat → Nat → List Nat → Bool × List Nat
  | 0, _, _ => (false, [])
  | fuel + 1, component, rest =>
    if fuel = 0 then
      ((parseCompLoop component 3 0 rest).2.1, [(parseCompLoop component 3 0 rest).2.2.1])
    else if !(parseCompLoop component 3 0 rest).1 ||
        (parseCompLoop component 3 0 rest).2.2.2.isEmpty then
      ((parseCompLoop component 3 0 rest).2.1, [(parseCompLoop component 3 0 rest).2.2.1])
    else
      ((parseCompsLoop fuel (component + 1) (parseCompLoop component 3 0 rest).2.2.2).1,
        (parseCompLoop component 3 0 rest).2.2.1 ::
          (parseCompsLoop fuel (component + 1) (parseCompLoop component 3 0 rest).2.2.2).2)

/-- `s_ParseColorSpec`: length 9-12, the literal `rgb:`, then the three
component loop; on success the low byte of each component value forms
the colour word. -/
def s_ParseColorSpec (s : List Nat) : Option Nat :=
  if s.length < 9 ∨ 12 < s.length then none
  else if s.getD 0 0 = 0x72 ∧ s.getD 1 0 = 0x67 ∧ s.getD 2 0 = 0x62 ∧
      s.getD 3 0 = 0x3A then
    let pr := parseCompsLoop 3 0 (s.drop 4)
    if pr.1 then
      some (RGBw (pr.2.getD 0 0 % 256) (pr.2.getD 1 0 % 256) (pr.2.getD 2 0 % 256))
    else none
  else none

/-- The table-index loop of `_GetOscSetColorTable`
(`for (i = 0; i < 4; i++)`): accumulate decimal digits, and stop at a
`;` provided at least one digit came first.  Returns the index and what
remains after the `;`. -/
def oscIndexLoop : Nat → Nat → Nat → List Nat → Option (Nat × List Nat)
  | 0, _, _, _ => none
  | fuel + 1, i, acc, rest =>
    if isNumber (rest.headD 0) then
      oscIndexLoop fuel (i + 1) (acc * 10 + (rest.headD 0 - 0x30)) rest.tail
    else if rest.headD 0 = 0x3B ∧ 0 < i then some (acc, rest.tail)
    else none

/-- `_GetOscSetColorTable`: length 11-16, a 1-3 digit table index, `;`,
then a colour spec. -/
def _GetOscSetColorTable (s : List Nat) : Option (Nat × Nat) :=
  if s.length < 11 ∨ 16 < s.length then none
  else
    match oscIndexLoop 4 0 0 s with
    | some ir => (s_ParseColorSpec ir.2).map fun c => (ir.1, c)
    | none => none

/-- `_GetOscSetColor` (OSC 10/11/12): just a colour spec. -/
def _GetOscSetColor (s : List Nat) : Option Nat := s_ParseColorSpec s

/-- `_GetOscTitle`: the payload is taken verbatim as the title, but the
routine reports success only for a nonempty payload
(`return !string.empty()`). -/
def _GetOscTitle (s : List Nat) : Option (List Nat) :=
  if s.isEmpty then none else some s

/-- The first index of a character in a view (`wstring_view::find`). -/
def wfind (s : List Nat) (c : Nat) : Option Nat :=
  match s with
  | [] => none
  | x :: xs => if x = c then some 0 else (wfind xs c).map (· + 1)

/-- Whether `pat` is an initial segment of `s`. -/
def hasPatAt : List Nat → List Nat → Bool
  | [], _ => true
  | _ :: _, [] => false
  | p :: ps, x :: xs => p == x && hasPatAt ps xs

/-- The first index where a pattern occurs in a view
(`wstring::find(pattern)`). -/
def wfindSub (s pat : List Nat) : Option Nat :=
  match s with
  | [] => if pat.isEmpty then some 0 else none
  | _ :: xs =>
    if hasPatAt pat s then some 0 else (wfindSub xs pat).map (· + 1)

/-- The characters of `hyperlinkIDParameter`, the literal `id=`. -/
def hyperlinkIDParameter : List Nat := [0x69, 0x64, 0x3D]

/-- `_ParseHyperlink`: split `<params>;<URI>` at the first `;`; a bare
`;` (length 1) closes the hyperlink with empty params and URI; otherwise
the URI is everything after the `;` and the params are what follows a
literal `id=` in the part before it, if present. -/
def _ParseHyperlink (s : List Nat) : Option (List Nat × List Nat) :=
  let len := s.length
  match wfind s 0x3B with
  | some midPos =>
    if len ≠ 1 then
      let uri := s.drop (midPos + 1)
      let paramStr := s.take midPos
      let params :=
        match wfindSub paramStr hyperlinkIDParameter with
        | some idPos => paramStr.drop (idPos + hyperlinkIDParameter.length)
        | none => []
      some (params, uri)
    else some ([], [])
  | none => none

/-- Modelled from the spec: `Base64::s_Decode` (base64.cpp is outside
the excerpt).  Standard base64: the alphabet A-Z a-z 0-9 + /, groups of
four characters, `=` padding closing the final group; anything else is
rejected. -/
def base64Val (c : Nat) : Option Nat :=
  if 0x41 ≤ c ∧ c ≤ 0x5A then some (c - 0x41)
  else if 0x61 ≤ c ∧ c ≤ 0x7A then some (c - 0x61 + 26)
  else if 0x30 ≤ c ∧ c ≤ 0x39 then some (c - 0x30 + 52)
  else if c = 0x2B then some 62
  else if c = 0x2F then some 63
  else none

/-- Modelled from the spec: the group-of-four base64 decoder behind
`Base64::s_Decode`. -/
def base64Decode : List Nat → Option (List Nat)
  | [] => some []
  | c1 :: c2 :: c3 :: c4 :: rest =>
    match base64Val c1, base64Val c2 with
    | some v1, some v2 =>
      if c3 = 0x3D ∧ c4 = 0x3D ∧ rest.isEmpty then some [v1 * 4 + v2 / 16]
      else
        match base64Val c3 with
        | some v3 =>
          if c4 = 0x3D ∧ rest.isEmpty then
            some [v1 * 4 + v2 / 16, v2 % 16 * 16 + v3 / 4]
          else
            match base64Val c4, base64Decode rest with
            | some v4, some tail =>
              some ((v1 * 4 + v2 / 16) :: (v2 % 16 * 16 + v3 / 4) :: (v3 % 4 * 64 + v4) :: tail)
            | _, _ => none
        | none => none
    | _, _ => none
  | _ => none

/-- `_GetOscSetClipboard`: `<Pc>;<Pd>` split at the first `;`; a `?`
queries the clipboard, anything else must decode as base64. -/
def _GetOscSetClipboard (s : List Nat) : Option (List Nat × Bool) :=
  match wfind s 0x3B with
  | some pos =>
    let substr := s.drop (pos + 1)
    if substr = [0x3F] then some ([], true)
    else (base64Decode substr).map fun content => (content, false)
  | none => none

/-- The locals `ActionOscDispatch` fills during payload validation. -/
structure OscArgs where
  title : List Nat := []
  tableIndex : Nat := 0
  color : Nat := 0
  clipContent : List Nat := []
  queryClipboard : Bool := false
  params : List Nat := []
  uri : List Nat := []
deriving Repr

/-- The first switch of `ActionOscDispatch`: parse the payload for the
recognised OSC parameter codes. -/
def oscFill (parameter : Nat) (s : List Nat) : Option OscArgs :=
  if parameter = OscActionCodes.SetIconAndWindowTitle ∨
      parameter = OscActionCodes.SetWindowIcon ∨
      parameter = OscActionCodes.SetWindowTitle then
    (_GetOscTitle s).map fun t => { title := t }
  else if parameter = OscActionCodes.SetColor then
    (_GetOscSetColorTable s).map fun ic => { tableIndex := ic.1, color := ic.2 }
  else if parameter = OscActionCodes.SetForegroundColor ∨
      parameter = OscActionCodes.SetBackgroundColor ∨
      parameter = OscActionCodes.SetCursorColor then
    (_GetOscSetColor s).map fun c => { color := c }
  else if parameter = OscActionCodes.SetClipboard then
    (_GetOscSetClipboard s).map fun cq => { clipContent := cq.1, queryClipboard := cq.2 }
  else if parameter = OscActionCodes.ResetCursorColor then
    some { color := 0xffffffff }
  else if parameter = OscActionCodes.Hyperlink then
    (_ParseHyperlink s).map fun pu => { params := pu.1, uri := pu.2 }
  else none

/-- The second switch of `ActionOscDispatch`: the Dispatch Target call
for each recognised OSC parameter code.  A clipboard query makes no
call and succeeds; a hyperlink with an empty URI ends the active
hyperlink. -/
def oscAction (e : Engine) (parameter : Nat) (a : OscArgs) : List DCall × Bool :=
  if parameter = OscActionCodes.SetIconAndWindowTitle ∨
      parameter = OscActionCodes.SetWindowIcon ∨
      parameter = OscActionCodes.SetWindowTitle then
    call1 e (DCall.SetWindowTitle a.title)
  else if parameter = OscActionCodes.SetColor then
    call1 e (DCall.SetColorTableEntry a.tableIndex a.color)
  else if parameter = OscActionCodes.SetForegroundColor then
    call1 e (DCall.SetDefaultForeground a.color)
  else if parameter = OscActionCodes.SetBackgroundColor then
    call1 e (DCall.SetDefaultBackground a.color)
  else if parameter = OscActionCodes.SetCursorColor then
    call1 e (DCall.SetCursorColor a.color)
  else if parameter = OscActionCodes.SetClipboard then
    if !a.queryClipboard then call1 e (DCall.SetClipboard a.clipContent)
    else ([], true)
  else if parameter = OscActionCodes.ResetCursorColor then
    call1 e (DCall.SetCursorColor a.color)
  else if parameter = OscActionCodes.Hyperlink then
    if a.uri.isEmpty then call1 e DCall.EndHyperlink
    else call1 e (DCall.AddHyperlink a.uri a.params)
  else ([], false)

/-- The OSC parameter codes `ActionOscDispatch` recognises. -/
def knownOscCode (parameter : Nat) : Prop :=
  parameter = OscActionCodes.SetIconAndWindowTitle ∨
  parameter = OscActionCodes.SetWindowIcon ∨
  parameter = OscActionCodes.SetWindowTitle ∨
  parameter = OscActionCodes.SetColor ∨
  parameter = OscActionCodes.SetForegroundColor ∨
  parameter = OscActionCodes.SetBackgroundColor ∨
  parameter = OscActionCodes.SetCursorColor ∨
  parameter = OscActionCodes.SetClipboard ∨
  parameter = OscActionCodes.ResetCursorColor ∨
  parameter = OscActionCodes.Hyperlink

/-- Both switches of `ActionOscDispatch` before the fallback. -/
def oscCore (e : Engine) (parameter : Nat) (s : List Nat) : List DCall × Bool :=
  match oscFill parameter s with
  | some a => oscAction e parameter a
  | none => ([], false)

/-- `ActionOscDispatch`: the terminator character is ignored; validate
the payload, dispatch, run the flush-to-terminal fallback on failure,
clear the last printed character. -/
def ActionOscDispatch (e : Engine) (wch : Nat) (parameter : Nat) (s : List Nat) :
    ActResult :=
  let cs := oscCore e parameter s
  { calls := cs.1,
    flushed := flushTriggered e cs.2,
    lastPrintedChar := AsciiChars.NUL,
    ret := flushResult e cs.2 }

/-- Split a list at the first occurrence of `c`: the part before (which
does not contain `c`) and the part after. -/
def splitAtChar (c : Nat) : List Nat → Option (List Nat × List Nat)
  | [] => none
  | x :: xs =>
    if x = c then some ([], xs)
    else
      match splitAtChar c xs with
      | some ab => some (x :: ab.1, ab.2)
      | none => none

/-- The value of a string of hex digits, most significant first. -/
def hexListVal (l : List Nat) : Nat :=
  l.foldl (fun acc c => acc * 16 + hexDigitValue c) 0

/-- The value of a string of decimal digits, most significant first. -/
def decListVal (l : List Nat) : Nat := l.foldl (fun acc c => acc * 10 + (c - 0x30)) 0

/-- Grammar side, amended: a red or green channel is 0-2 hex digits
followed by `/`; an empty channel parses as 0. -/
def chanParse (rest : List Nat) : Option (Nat × List Nat) :=
  match splitAtChar 0x2F rest with
  | some hr =>
    if hr.1.length ≤ 2 ∧ hr.1.all isHexNumber then some (hexListVal hr.1, hr.2)
    else none
  | none => none

/-- Grammar side, amended: the blue channel is the whole remaining
string, 1-3 hex digits. -/
def lastChanParse (rest : List Nat) : Option Nat :=
  if 1 ≤ rest.length ∧ rest.length ≤ 3 ∧ rest.all isHexNumber then
    some (hexListVal rest)
  else none

/-- Grammar side, amended: what `s_ParseColorSpec` actually accepts —
`rgb:R/G/B` of total length 9-12 where R and G are 0-2 hex digits each
(empty = 0) and B is 1-3 hex digits, the value of each channel reduced
to its low byte into the word blue-green-red from the high byte down. -/
def amendedColorGrammar (s : List Nat) : Option Nat :=
  if s.length < 9 ∨ 12 < s.length then none
  else if s.getD 0 0 = 0x72 ∧ s.getD 1 0 = 0x67 ∧ s.getD 2 0 = 0x62 ∧
      s.getD 3 0 = 0x3A then
    match chanParse (s.drop 4) with
    | some rp =>
      match chanParse rp.2 with
      | some gp =>
        match lastChanParse gp.2 with
        | some b => some (RGBw (rp.1 % 256) (gp.1 % 256) (b % 256))
        | none => none
      | none => none
    | none => none
  else none

/-- Grammar side, as the claim states it: `rgb:H[H]/H[H]/H[H]`, each
channel exactly 1 or 2 hex digits, total length 9-12. -/
def origColorGrammar (s : List Nat) : Option Nat :=
  if s.length < 9 ∨ 12 < s.length then none
  else if s.getD 0 0 = 0x72 ∧ s.getD 1 0 = 0x67 ∧ s.getD 2 0 = 0x62 ∧
      s.getD 3 0 = 0x3A then
    match splitAtChar 0x2F (s.drop 4) with
    | some rp =>
      match splitAtChar 0x2F rp.2 with
      | some gp =>
        if (1 ≤ rp.1.length ∧ rp.1.length ≤ 2 ∧ rp.1.all isHexNumber) ∧
            (1 ≤ gp.1.length ∧ gp.1.length ≤ 2 ∧ gp.1.all isHexNumber) ∧
            (1 ≤ gp.2.length ∧ gp.2.length ≤ 2 ∧ gp.2.all isHexNumber) then
          some (RGBw (hexListVal rp.1) (hexListVal gp.1) (hexListVal gp.2))
        else none
      | none => none
    | none => none
  else none

/-- Grammar side for OSC 4: total length 11-16, a table index of 1-3
decimal digits, `;`, then whatever `s_ParseColorSpec` accepts. -/
def oscSetColorTableFormat (s : List Nat) : Option (Nat × Nat) :=
  if s.length < 11 ∨ 16 < s.length then none
  else
    match splitAtChar 0x3B s with
    | some dr =>
      if 1 ≤ dr.1.length ∧ dr.1.length ≤ 3 ∧ dr.1.all isNumber then
        (s_ParseColorSpec dr.2).map fun c => (decListVal dr.1, c)
      else none
    | none => none

lemma flushResult_false (e : Engine) :
    flushResult e false = e.pfnFlushToTerminal.getD false := by
  unfold flushResult
  cases hp : e.pfnFlushToTerminal <;> simp [hp]

lemma flushTriggered_false (e : Engine) :
    flushTriggered e false = e.pfnFlushToTerminal.isSome := by
  simp [flushTriggered]

lemma flushResult_true (e : Engine) : flushResult e true = true := by
  simp [flushResult]

lemma flushTriggered_true (e : Engine) : flushTriggered e true = false := by
  simp [flushTriggered]

/-- C9: For every wide character wch, ActionExecuteFromEscape(wch)
produces exactly the same Dispatch Target calls, the same
last-printed-char state change, and the same return value as
ActionExecute(wch) — the whole action results coincide. -/
theorem executeFromEscape_eq_execute (e : Engine) (wch : Nat) :
    ActionExecuteFromEscape e wch = ActionExecute e wch := rfl

/-- C10: ActionExecute, ActionExecuteFromEscape, ActionPrint and
ActionPrintString return true for every input, and their entire result
(calls made, flush invocation, last printed character) is independent of
the Dispatch Target's success function: a Dispatch Target failure inside
them is discarded and triggers nothing. -/
theorem print_family_always_succeeds (d₁ d₂ : DCall → Bool) (fl : Option Bool)
    (tty : Option (List Nat → Bool)) (last wch : Nat) (s : List Nat) :
    (ActionExecute ⟨d₁, fl, tty, last⟩ wch).ret = true
    ∧ (ActionExecuteFromEscape ⟨d₁, fl, tty, last⟩ wch).ret = true
    ∧ (ActionPrint ⟨d₁, fl, tty, last⟩ wch).ret = true
    ∧ (ActionPrintString ⟨d₁, fl, tty, last⟩ s).ret = true
    ∧ ActionExecute ⟨d₁, fl, tty, last⟩ wch = ActionExecute ⟨d₂, fl, tty, last⟩ wch
    ∧ ActionExecuteFromEscape ⟨d₁, fl, tty, last⟩ wch
        = ActionExecuteFromEscape ⟨d₂, fl, tty, last⟩ wch
    ∧ ActionPrint ⟨d₁, fl, tty, last⟩ wch = ActionPrint ⟨d₂, fl, tty, last⟩ wch
    ∧ ActionPrintString ⟨d₁, fl, tty, last⟩ s = ActionPrintString ⟨d₂, fl, tty, last⟩ s := by
  refine ⟨rfl, rfl, rfl, ?_, rfl, rfl, rfl, ?_⟩ <;>
    · unfold ActionPrintString
      cases s <;> rfl

/-- C1 (amended): after each of Execute, ExecuteFromEscape, EscDispatch,
Vt52EscDispatch, CsiDispatch, OscDispatch and Ss3Dispatch — but not
PassThroughString — the engine's last-printed-char is NUL, whatever the
input and whether or not the action succeeded. -/
theorem nonprint_actions_clear_last_char (e : Engine) (wch id parameter w : Nat)
    (ps s : List Nat) :
    (ActionExecute e wch).lastPrintedChar = AsciiChars.NUL
    ∧ (ActionExecuteFromEscape e wch).lastPrintedChar = AsciiChars.NUL
    ∧ (ActionEscDispatch e id).lastPrintedChar = AsciiChars.NUL
    ∧ (ActionVt52EscDispatch e id ps).lastPrintedChar = AsciiChars.NUL
    ∧ (ActionCsiDispatch e id ps).lastPrintedChar = AsciiChars.NUL
    ∧ (ActionOscDispatch e w parameter s).lastPrintedChar = AsciiChars.NUL
    ∧ (ActionSs3Dispatch e wch ps).lastPrintedChar = AsciiChars.NUL :=
  ⟨rfl, rfl, rfl, rfl, rfl, rfl, rfl⟩

/-- C1 (counterexample): ActionPassThroughString is a dispatch action of
the engine, yet after it returns (successfully, with no TTY attached)
the last-printed-char is still the 'X' printed before, not NUL. -/
theorem passthrough_keeps_last_char :
    (ActionPassThroughString ⟨fun _ => true, none, none, 0x58⟩ [0x1B, 0x41]).ret = true
    ∧ (ActionPassThroughString ⟨fun _ => true, none, none, 0x58⟩
        [0x1B, 0x41]).lastPrintedChar = 0x58
    ∧ (0x58 : Nat) ≠ AsciiChars.NUL :=
  ⟨rfl, rfl, by decide⟩

/-- C4: DECSTBM dispatches SetTopBottomScrollingMargins(0,0) with no
parameters, (top,0) with one parameter, (top,bottom) with two — except
that a positive bottom margin smaller than the top margin fails
validation and nothing is dispatched. -/
theorem decstbm_margins (e : Engine) (t b : Nat) :
    (ActionCsiDispatch e CsiActionCodes.DECSTBM_SetScrollingRegion []).calls
      = [DCall.SetTopBottomScrollingMargins 0 0]
    ∧ (ActionCsiDispatch e CsiActionCodes.DECSTBM_SetScrollingRegion [t]).calls
      = [DCall.SetTopBottomScrollingMargins t 0]
    ∧ (ActionCsiDispatch e CsiActionCodes.DECSTBM_SetScrollingRegion [t, b]).calls
      = (if 0 < b ∧ b < t then [] else [DCall.SetTopBottomScrollingMargins t b])
    ∧ _GetTopBottomMargins [t, b] = (if 0 < b ∧ b < t then none else some (t, b)) := by
  refine ⟨rfl, rfl, ?_, ?_⟩ <;>
    · by_cases h : 0 < b ∧ b < t <;>
        simp [ActionCsiDispatch, csiCore, csiFill, csiAction, call1,
          _GetTopBottomMargins, h]

/-- C3: a REP CsiDispatch whose repeat count validates performs no
Dispatch Target call and succeeds when no graphical character was
printed before; otherwise it prints the last graphical character
repeatCount times via PrintString and succeeds; the flush fallback never
fires. -/
theorem rep_dispatch (e : Engine) (ps : List Nat) (rc : Nat)
    (h : _GetRepeatCount ps = some rc) :
    (ActionCsiDispatch e CsiActionCodes.REP_RepeatCharacter ps).ret = true
    ∧ (ActionCsiDispatch e CsiActionCodes.REP_RepeatCharacter ps).flushed = false
    ∧ (ActionCsiDispatch e CsiActionCodes.REP_RepeatCharacter ps).calls
      = (if e.lastPrintedChar = AsciiChars.NUL then []
         else [DCall.PrintString (List.replicate rc e.lastPrintedChar)]) := by
  rcases ps with _ | ⟨p, _ | ⟨q, t⟩⟩ <;> simp [_GetRepeatCount] at h <;>
    subst h <;>
    by_cases hl : e.lastPrintedChar = 0 <;>
      simp [ActionCsiDispatch, csiCore, csiFill, csiAction, _GetRepeatCount,
        flushResult, flushTriggered, hl]

/-- C3 (witness): REP with one parameter 3 validates to a repeat count
of 3 and, after an 'X', prints "XXX". -/
theorem rep_dispatch_witness :
    _GetRepeatCount [3] = some 3
    ∧ (ActionCsiDispatch ⟨fun _ => true, none, none, 0x58⟩
        CsiActionCodes.REP_RepeatCharacter [3]).calls
      = (if (0x58 : Nat) = AsciiChars.NUL then []
         else [DCall.PrintString (List.replicate 3 0x58)]) :=
  ⟨rfl, (rep_dispatch ⟨fun _ => true, none, none, 0x58⟩ [3] 3 rfl).2.2⟩

/-- C7: the engine rejects an empty title payload.  `_GetOscTitle`'s own
documentation says a title with length 0 is still valid, but the routine
returns `!string.empty()`: an OSC 0/1/2 dispatch with an empty payload
makes no SetWindowTitle call and fails (falling back to the TTY flush
when one is configured), while a nonempty payload is passed verbatim. -/
theorem empty_title_rejected :
    _GetOscTitle [] = none
    ∧ (ActionOscDispatch ⟨fun _ => true, none, none, 0⟩ 7
        OscActionCodes.SetWindowTitle []).ret = false
    ∧ (ActionOscDispatch ⟨fun _ => true, none, none, 0⟩ 7
        OscActionCodes.SetWindowTitle []).calls = []
    ∧ (ActionOscDispatch ⟨fun _ => true, some true, none, 0⟩ 7
        OscActionCodes.SetWindowTitle []).flushed = true
    ∧ (ActionOscDispatch ⟨fun _ => true, none, none, 0⟩ 7
        OscActionCodes.SetWindowTitle [0x68]).calls = [DCall.SetWindowTitle [0x68]] :=
  ⟨rfl, rfl, rfl, rfl, rfl⟩

/-- C2: in the distance family CUU/CUD/CUF/CUB/ICH/DCH/ECH/IL/DL/SU/SD/
CHT/CBT/REP, an empty parameter list or a single 0 reaches the Dispatch
Target as 1 (for REP, as a repeat count of 1), and a single nonzero
parameter passes through unchanged. -/
theorem distance_zero_coerced_to_one (e : Engine) (n w : Nat) (hn : n ≠ 0)
    (hw : w ≠ 0) :
    ((ActionCsiDispatch e CsiActionCodes.CUU_CursorUp []).calls = [DCall.CursorUp 1]
      ∧ (ActionCsiDispatch e CsiActionCodes.CUU_CursorUp [0]).calls = [DCall.CursorUp 1]
      ∧ (ActionCsiDispatch e CsiActionCodes.CUU_CursorUp [n]).calls = [DCall.CursorUp n])
    ∧ ((ActionCsiDispatch e CsiActionCodes.CUD_CursorDown []).calls = [DCall.CursorDown 1]
      ∧ (ActionCsiDispatch e CsiActionCodes.CUD_CursorDown [0]).calls = [DCall.CursorDown 1]
      ∧ (ActionCsiDispatch e CsiActionCodes.CUD_CursorDown [n]).calls = [DCall.CursorDown n])
    ∧ ((ActionCsiDispatch e CsiActionCodes.CUF_CursorForward []).calls
        = [DCall.CursorForward 1]
      ∧ (ActionCsiDispatch e CsiActionCodes.CUF_CursorForward [0]).calls
        = [DCall.CursorForward 1]
      ∧ (ActionCsiDispatch e CsiActionCodes.CUF_CursorForward [n]).calls
        = [DCall.CursorForward n])
    ∧ ((ActionCsiDispatch e CsiActionCodes.CUB_CursorBackward []).calls
        = [DCall.CursorBackward 1]
      ∧ (ActionCsiDispatch e CsiActionCodes.CUB_CursorBackward [0]).calls
        = [DCall.CursorBackward 1]
      ∧ (ActionCsiDispatch e CsiActionCodes.CUB_CursorBackward [n]).calls
        = [DCall.CursorBackward n])
    ∧ ((ActionCsiDispatch e CsiActionCodes.ICH_InsertCharacter []).calls
        = [DCall.InsertCharacter 1]
      ∧ (ActionCsiDispatch e CsiActionCodes.ICH_InsertCharacter [0]).calls
        = [DCall.InsertCharacter 1]
      ∧ (ActionCsiDispatch e CsiActionCodes.ICH_InsertCharacter [n]).calls
        = [DCall.InsertCharacter n])
    ∧ ((ActionCsiDispatch e CsiActionCodes.DCH_DeleteCharacter []).calls
        = [DCall.DeleteCharacter 1]
      ∧ (ActionCsiDispatch e CsiActionCodes.DCH_DeleteCharacter [0]).calls
        = [DCall.DeleteCharacter 1]
      ∧ (ActionCsiDispatch e CsiActionCodes.DCH_DeleteCharacter [n]).calls
        = [DCall.DeleteCharacter n])
    ∧ ((ActionCsiDispatch e CsiActionCodes.ECH_EraseCharacters []).calls
        = [DCall.EraseCharacters 1]
      ∧ (ActionCsiDispatch e CsiActionCodes.ECH_EraseCharacters [0]).calls
        = [DCall.EraseCharacters 1]
      ∧ (ActionCsiDispatch e CsiActionCodes.ECH_EraseCharacters [n]).calls
        = [DCall.EraseCharacters n])
    ∧ ((ActionCsiDispatch e CsiActionCodes.IL_InsertLine []).calls = [DCall.InsertLine 1]
      ∧ (ActionCsiDispatch e CsiActionCodes.IL_InsertLine [0]).calls = [DCall.InsertLine 1]
      ∧ (ActionCsiDispatch e CsiActionCodes.IL_InsertLine [n]).calls = [DCall.InsertLine n])
    ∧ ((ActionCsiDispatch e CsiActionCodes.DL_DeleteLine []).calls = [DCall.DeleteLine 1]
      ∧ (ActionCsiDispatch e CsiActionCodes.DL_DeleteLine [0]).calls = [DCall.DeleteLine 1]
      ∧ (ActionCsiDispatch e CsiActionCodes.DL_DeleteLine [n]).calls = [DCall.DeleteLine n])
    ∧ ((ActionCsiDispatch e CsiActionCodes.SU_ScrollUp []).calls = [DCall.ScrollUp 1]
      ∧ (ActionCsiDispatch e CsiActionCodes.SU_ScrollUp [0]).calls = [DCall.ScrollUp 1]
      ∧ (ActionCsiDispatch e CsiActionCodes.SU_ScrollUp [n]).calls = [DCall.ScrollUp n])
    ∧ ((ActionCsiDispatch e CsiActionCodes.SD_ScrollDown []).calls = [DCall.ScrollDown 1]
      ∧ (ActionCsiDispatch e CsiActionCodes.SD_ScrollDown [0]).calls = [DCall.ScrollDown 1]
      ∧ (ActionCsiDispatch e CsiActionCodes.SD_ScrollDown [n]).calls = [DCall.ScrollDown n])
    ∧ ((ActionCsiDispatch e CsiActionCodes.CHT_CursorForwardTab []).calls
        = [DCall.ForwardTab 1]
      ∧ (ActionCsiDispatch e CsiActionCodes.CHT_CursorForwardTab [0]).calls
        = [DCall.ForwardTab 1]
      ∧ (ActionCsiDispatch e CsiActionCodes.CHT_CursorForwardTab [n]).calls
        = [DCall.ForwardTab n])
    ∧ ((ActionCsiDispatch e CsiActionCodes.CBT_CursorBackTab []).calls
        = [DCall.BackwardsTab 1]
      ∧ (ActionCsiDispatch e CsiActionCodes.CBT_CursorBackTab [0]).calls
        = [DCall.BackwardsTab 1]
      ∧ (ActionCsiDispatch e CsiActionCodes.CBT_CursorBackTab [n]).calls
        = [DCall.BackwardsTab n])
    ∧ ((ActionCsiDispatch { e with lastPrintedChar := w }
          CsiActionCodes.REP_RepeatCharacter []).calls
        = [DCall.PrintString (List.replicate 1 w)]
      ∧ (ActionCsiDispatch { e with lastPrintedChar := w }
          CsiActionCodes.REP_RepeatCharacter [0]).calls
        = [DCall.PrintString (List.replicate 1 w)]
      ∧ (ActionCsiDispatch { e with lastPrintedChar := w }
          CsiActionCodes.REP_RepeatCharacter [n]).calls
        = [DCall.PrintString (List.replicate n w)]) := by
  repeat' apply And.intro
  all_goals
    simp [ActionCsiDispatch, csiCore, csiFill, csiAction, call1, _GetCursorDistance,
      _GetScrollDistance, _GetTabDistance, _GetRepeatCount, hn, hw]

/-- C2 (witness): CUU and REP at the concrete nonzero parameter 5, with
'X' as the prior graphical character. -/
theorem distance_zero_coerced_to_one_witness :
    (5 : Nat) ≠ 0 ∧ (0x58 : Nat) ≠ 0
    ∧ (ActionCsiDispatch ⟨fun _ => true, none, none, 0⟩
        CsiActionCodes.CUU_CursorUp [5]).calls = [DCall.CursorUp 5]
    ∧ (ActionCsiDispatch ⟨fun _ => true, none, none, 0x58⟩
        CsiActionCodes.REP_RepeatCharacter [0]).calls
      = [DCall.PrintString (List.replicate 1 0x58)] :=
  have h := distance_zero_coerced_to_one ⟨fun _ => true, none, none, 0⟩ 5 0x58
    (by decide) (by decide)
  ⟨by decide, by decide, h.1.2.2, (h.2.2.2.2.2.2.2.2.2.2.2.2.2).2.1⟩

lemma csiCore_none {id : Nat} {parameters : List Nat} (e : Engine)
    (h : csiFill id parameters = none) : csiCore e id parameters = ([], false) := by
  simp [csiCore, h]

lemma csiAction_unknown {id : Nat} (e : Engine) (a : CsiArgs) (rem : List Nat)
    (h : ¬ knownCsiId id) : csiAction e id a rem = ([], false) := by
  unfold knownCsiId at h
  push_neg at h
  obtain ⟨n1, n2, n3, n4, n5, n6, n7, n8, n9, n10, n11, n12, n13, n14, n15, n16, n17,
    n18, n19, n20, n21, n22, n23, n24, n25, n26, n27, n28, n29, n30, n31, n32, n33,
    n34, n35, n36, n37, n38, n39⟩ := h
  unfold csiAction
  rw [if_neg n1, if_neg n2, if_neg n3, if_neg n4, if_neg n5, if_neg n6,
    if_neg (not_or_intro n7 n8), if_neg n9, if_neg n10, if_neg n11,
    if_neg (not_or_intro n12 n13), if_neg n14, if_neg n15, if_neg n16, if_neg n17,
    if_neg n18, if_neg n19, if_neg n20, if_neg n21, if_neg n22, if_neg n23, if_neg n24,
    if_neg n25, if_neg n26, if_neg n27, if_neg n28, if_neg n29, if_neg n30, if_neg n31,
    if_neg n32, if_neg n33, if_neg n34, if_neg n35, if_neg n36, if_neg n37, if_neg n38,
    if_neg n39]

lemma csiCore_unknown {id : Nat} (e : Engine) (parameters : List Nat)
    (h : ¬ knownCsiId id) : csiCore e id parameters = ([], false) := by
  unfold csiCore
  cases hf : csiFill id parameters with
  | none => rfl
  | some a => exact csiAction_unknown e a _ h

lemma escAction_unknown {id : Nat} (e : Engine) (h : ¬ knownEscId id) :
    escAction e id = ([], false) := by
  unfold knownEscId at h
  push_neg at h
  obtain ⟨n1, n2, n3, n4, n5, n6, n7, n8, n9, n10, n11, n12, n13, n14, n15, n16, n17,
    n18, n19, n20, n21, n22, n23, n24, n25, n26⟩ := h
  unfold escAction
  rw [if_neg n1, if_neg n2, if_neg n3, if_neg n4, if_neg n5, if_neg n6, if_neg n7,
    if_neg n8, if_neg n9, if_neg n10, if_neg n11, if_neg n12, if_neg n13, if_neg n14,
    if_neg n15, if_neg n16, if_neg n17, if_neg n18, if_neg n19, if_neg n20, if_neg n21,
    if_neg n22, if_neg n23, if_neg n24, if_neg n25, if_neg n26]

lemma oscFill_unknown {parameter : Nat} (s : List Nat)
    (h : ¬ knownOscCode parameter) : oscFill parameter s = none := by
  unfold knownOscCode at h
  push_neg at h
  obtain ⟨n1, n2, n3, n4, n5, n6, n7, n8, n9, n10⟩ := h
  unfold oscFill
  rw [if_neg (not_or_intro n1 (not_or_intro n2 n3)), if_neg n4,
    if_neg (not_or_intro n5 (not_or_intro n6 n7)), if_neg n8, if_neg n9, if_neg n10]

lemma oscCore_none {parameter : Nat} {s : List Nat} (e : Engine)
    (h : oscFill parameter s = none) : oscCore e parameter s = ([], false) := by
  simp [oscCore, h]

/-- C8: whenever a CsiDispatch, EscDispatch or OscDispatch fails before
the fallback — its parameter validation failed, its VTID or OSC code is
unknown, or the Dispatch Target call it made returned false — the action
invokes the flush-to-terminal callback exactly when one is configured
and returns that callback's result (failure when none is configured);
a validation failure or unknown code means the switch made no Dispatch
Target call at all. -/
theorem failed_dispatch_falls_back (e : Engine) (id parameter w : Nat)
    (parameters s : List Nat) :
    ((csiCore e id parameters).2 = false →
      (ActionCsiDispatch e id parameters).ret = e.pfnFlushToTerminal.getD false
      ∧ (ActionCsiDispatch e id parameters).flushed = e.pfnFlushToTerminal.isSome
      ∧ (ActionCsiDispatch e id parameters).calls = (csiCore e id parameters).1)
    ∧ (csiFill id parameters = none → csiCore e id parameters = ([], false))
    ∧ (¬ knownCsiId id → csiCore e id parameters = ([], false))
    ∧ ((escAction e id).2 = false →
      (ActionEscDispatch e id).ret = e.pfnFlushToTerminal.getD false
      ∧ (ActionEscDispatch e id).flushed = e.pfnFlushToTerminal.isSome
      ∧ (ActionEscDispatch e id).calls = (escAction e id).1)
    ∧ (¬ knownEscId id → escAction e id = ([], false))
    ∧ ((oscCore e parameter s).2 = false →
      (ActionOscDispatch e w parameter s).ret = e.pfnFlushToTerminal.getD false
      ∧ (ActionOscDispatch e w parameter s).flushed = e.pfnFlushToTerminal.isSome
      ∧ (ActionOscDispatch e w parameter s).calls = (oscCore e parameter s).1)
    ∧ (oscFill parameter s = none → oscCore e parameter s = ([], false))
    ∧ (¬ knownOscCode parameter → oscFill parameter s = none) := by
  refine ⟨fun h => ?_, fun h => csiCore_none e h, fun h => csiCore_unknown e parameters h,
    fun h => ?_, fun h => escAction_unknown e h,
    fun h => ?_, fun h => oscCore_none e h, fun h => oscFill_unknown s h⟩
  · exact ⟨by simp [ActionCsiDispatch, h, flushResult_false],
      by simp [ActionCsiDispatch, h, flushTriggered_false], rfl⟩
  · exact ⟨by simp [ActionEscDispatch, h, flushResult_false],
      by simp [ActionEscDispatch, h, flushTriggered_false], rfl⟩
  · exact ⟨by simp [ActionOscDispatch, h, flushResult_false],
      by simp [ActionOscDispatch, h, flushTriggered_false], rfl⟩

/-- C8 (witness): DECSTBM with margins 2,1 fails validation on an engine
whose flush callback is configured and returns true: no Dispatch Target
call is made, the callback fires, and its result true is returned. -/
theorem failed_dispatch_falls_back_witness :
    (csiCore ⟨fun _ => false, some true, none, 0⟩
        CsiActionCodes.DECSTBM_SetScrollingRegion [2, 1]).2 = false
    ∧ (ActionCsiDispatch ⟨fun _ => false, some true, none, 0⟩
        CsiActionCodes.DECSTBM_SetScrollingRegion [2, 1]).ret = true
    ∧ (ActionCsiDispatch ⟨fun _ => false, some true, none, 0⟩
        CsiActionCodes.DECSTBM_SetScrollingRegion [2, 1]).flushed = true
    ∧ (ActionCsiDispatch ⟨fun _ => false, some true, none, 0⟩
        CsiActionCodes.DECSTBM_SetScrollingRegion [2, 1]).calls = [] :=
  have h := (failed_dispatch_falls_back ⟨fun _ => false, some true, none, 0⟩
    CsiActionCodes.DECSTBM_SetScrollingRegion 0 0 [2, 1] []).1 (by rfl)
  ⟨by rfl, h.1, h.2.1, h.2.2⟩

lemma pcl_succ (c fuel v : Nat) (rest : List Nat) :
    parseCompLoop c (fuel + 1) v rest =
      (if isHexNumber (rest.headD 0) then
         match s_HexToUint (rest.headD 0) with
         | some intVal =>
           if c = 2 ∧ rest.tail.isEmpty then (false, true, v * 16 + intVal, rest.tail)
           else parseCompLoop c fuel (v * 16 + intVal) rest.tail
         | none => (false, false, v * 16, rest.tail)
       else if rest.headD 0 = 0x2F then (true, false, v, rest.tail)
       else (false, false, v, rest.tail)) := rfl

lemma pcls_succ (fuel comp : Nat) (rest : List Nat) :
    parseCompsLoop (fuel + 1) comp rest =
      (if fuel = 0 then
         ((parseCompLoop comp 3 0 rest).2.1, [(parseCompLoop comp 3 0 rest).2.2.1])
       else if !(parseCompLoop comp 3 0 rest).1 ||
           (parseCompLoop comp 3 0 rest).2.2.2.isEmpty then
         ((parseCompLoop comp 3 0 rest).2.1, [(parseCompLoop comp 3 0 rest).2.2.1])
       else
         ((parseCompsLoop fuel (comp + 1) (parseCompLoop comp 3 0 rest).2.2.2).1,
           (parseCompLoop comp 3 0 rest).2.2.1 ::
             (parseCompsLoop fuel (comp + 1) (parseCompLoop comp 3 0 rest).2.2.2).2)) :=
  rfl

lemma s_HexToUint_isHex {c : Nat} (h : isHexNumber c = true) :
    s_HexToUint c = some (hexDigitValue c) := by
  unfold isHexNumber at h
  simp only [Bool.or_eq_true, Bool.and_eq_true, decide_eq_true_eq] at h
  unfold s_HexToUint hexDigitValue
  split_ifs <;> first | rfl | omega

lemma slash_not_hex : isHexNumber 0x2F = false := by decide

lemma splitAtChar_some {c : Nat} :
    ∀ {l : List Nat} {ab : List Nat × List Nat}, splitAtChar c l = some ab →
      l = ab.1 ++ c :: ab.2 ∧ c ∉ ab.1 := by
  intro l
  induction l with
  | nil => intro ab h; simp [splitAtChar] at h
  | cons x xs ih =>
    intro ab h
    unfold splitAtChar at h
    by_cases hx : x = c
    · rw [if_pos hx] at h
      obtain rfl : ([], xs) = ab := by simpa using h
      simp [hx]
    · rw [if_neg hx] at h
      cases hs : splitAtChar c xs with
      | none => rw [hs] at h; exact absurd h (by simp)
      | some ab2 =>
        rw [hs] at h
        obtain rfl : (x :: ab2.1, ab2.2) = ab := by simpa using h
        obtain ⟨h1, h2⟩ := ih hs
        refine ⟨by simpa using congrArg (x :: ·) h1, ?_⟩
        simp only [List.mem_cons, not_or]
        exact ⟨fun hcx => hx hcx.symm, h2⟩

lemma splitAtChar_none {c : Nat} :
    ∀ {l : List Nat}, splitAtChar c l = none → c ∉ l := by
  intro l
  induction l with
  | nil => intro h; simp
  | cons x xs ih =>
    intro h
    unfold splitAtChar at h
    by_cases hx : x = c
    · rw [if_pos hx] at h; exact absurd h (by simp)
    · rw [if_neg hx] at h
      cases hs : splitAtChar c xs with
      | none =>
        simp only [List.mem_cons, not_or]
        exact ⟨fun hcx => hx hcx.symm, ih hs⟩
      | some ab2 => rw [hs] at h; exact absurd h (by simp)

lemma parseCompLoop_valid_ne2 {c : Nat} (hc : c ≠ 2) :
    ∀ (fuel v : Nat) (rest : List Nat), (parseCompLoop c fuel v rest).2.1 = false := by
  intro fuel
  induction fuel with
  | zero => intro v rest; rfl
  | succ n ih =>
    intro v rest
    rw [pcl_succ]
    by_cases h1 : isHexNumber (rest.headD 0) = true
    · simp only [h1, if_true, s_HexToUint_isHex h1]
      simp only [hc, false_and, if_false]
      exact ih _ _
    · rw [if_neg h1]
      by_cases h2 : rest.headD 0 = 0x2F
      · rw [if_pos h2]
      · rw [if_neg h2]

lemma parseCompLoop_chan_some {c : Nat} (hc : c ≠ 2) {rest : List Nat}
    {vr : Nat × List Nat} (h : chanParse rest = some vr) :
    parseCompLoop c 3 0 rest = (true, false, vr.1, vr.2) := by
  unfold chanParse at h
  cases hs : splitAtChar 0x2F rest with
  | none => rw [hs] at h; exact absurd h (by simp)
  | some ab =>
    rw [hs] at h
    have h2 : (if ab.1.length ≤ 2 ∧ ab.1.all isHexNumber then
        some (hexListVal ab.1, ab.2) else none) = some vr := h
    by_cases hcond : ab.1.length ≤ 2 ∧ ab.1.all isHexNumber
    case neg => rw [if_neg hcond] at h2; exact absurd h2 (by simp)
    rw [if_pos hcond] at h2
    obtain ⟨heq, hnin⟩ := splitAtChar_some hs
    obtain rfl : (hexListVal ab.1, ab.2) = vr := by simpa using h2
    obtain ⟨hlen, hhex⟩ := hcond
    obtain ⟨hs1, r⟩ := ab
    simp only at heq hlen hhex ⊢
    subst heq
    rcases hs1 with _ | ⟨x, _ | ⟨y, _ | ⟨z, tl⟩⟩⟩
    · rw [pcl_succ]
      simp [slash_not_hex, hexListVal]
    · simp only [List.all_cons, List.all_nil, Bool.and_true] at hhex
      rw [pcl_succ]
      simp only [List.cons_append, List.nil_append, List.headD_cons, List.tail_cons,
        hhex, if_true, s_HexToUint_isHex hhex]
      rw [if_neg (by simp [hc]), pcl_succ]
      simp [slash_not_hex, hexListVal]
    · simp only [List.all_cons, List.all_nil, Bool.and_true, Bool.and_eq_true] at hhex
      obtain ⟨hx, hy⟩ := hhex
      rw [pcl_succ]
      simp only [List.cons_append, List.nil_append, List.headD_cons, List.tail_cons,
        hx, if_true, s_HexToUint_isHex hx]
      rw [if_neg (by simp [hc]), pcl_succ]
      simp only [List.cons_append, List.nil_append, List.headD_cons, List.tail_cons,
        hy, if_true, s_HexToUint_isHex hy]
      rw [if_neg (by simp [hc]), pcl_succ]
      simp [slash_not_hex, hexListVal]
    · simp at hlen

lemma parseCompLoop_chan_none {c : Nat} (hc : c ≠ 2) {rest : List Nat}
    (h : chanParse rest = none) :
    (parseCompLoop c 3 0 rest).1 = false := by
  unfold chanParse at h
  cases hs : splitAtChar 0x2F rest with
  | none =>
    have hnot : 0x2F ∉ rest := splitAtChar_none hs
    rcases rest with _ | ⟨a, _ | ⟨b, _ | ⟨d, tl⟩⟩⟩
    · rw [pcl_succ]; simp [isHexNumber]
    · simp only [List.mem_singleton] at hnot
      have ha47 : ¬ a = 0x2F := fun hh => hnot hh.symm
      by_cases ha : isHexNumber a = true
      · rw [pcl_succ]
        simp only [List.headD_cons, List.tail_cons, ha, if_true, s_HexToUint_isHex ha]
        rw [if_neg (by simp [hc]), pcl_succ]
        simp [isHexNumber]
      · rw [pcl_succ]
        simp [ha, ha47]
    · simp only [List.mem_cons, List.mem_singleton, not_or] at hnot
      have ha47 : ¬ a = 0x2F := fun hh => hnot.1 hh.symm
      have hb47 : ¬ b = 0x2F := fun hh => hnot.2.1 hh.symm
      by_cases ha : isHexNumber a = true
      · by_cases hb : isHexNumber b = true
        · rw [pcl_succ]
          simp only [List.headD_cons, List.tail_cons, ha, if_true, s_HexToUint_isHex ha]
          rw [if_neg (by simp [hc]), pcl_succ]
          simp only [List.headD_cons, List.tail_cons, hb, if_true, s_HexToUint_isHex hb]
          rw [if_neg (by simp [hc]), pcl_succ]
          simp [isHexNumber]
        · rw [pcl_succ]
          simp only [List.headD_cons, List.tail_cons, ha, if_true, s_HexToUint_isHex ha]
          rw [if_neg (by simp [hc]), pcl_succ]
          simp [hb, hb47]
      · rw [pcl_succ]
        simp [ha, ha47]
    · simp only [List.mem_cons, not_or] at hnot
      have ha47 : ¬ a = 0x2F := fun hh => hnot.1 hh.symm
      have hb47 : ¬ b = 0x2F := fun hh => hnot.2.1 hh.symm
      have hd47 : ¬ d = 0x2F := fun hh => hnot.2.2.1 hh.symm
      by_cases ha : isHexNumber a = true
      · by_cases hb : isHexNumber b = true
        · by_cases hd : isHexNumber d = true
          · rw [pcl_succ]
            simp only [List.headD_cons, List.tail_cons, ha, if_true, s_HexToUint_isHex ha]
            rw [if_neg (by simp [hc]), pcl_succ]
            simp only [List.headD_cons, List.tail_cons, hb, if_true, s_HexToUint_isHex hb]
            rw [if_neg (by simp [hc]), pcl_succ]
            simp only [List.headD_cons, List.tail_cons, hd, if_true, s_HexToUint_isHex hd]
            rw [if_neg (by simp [hc])]
            rfl
          · rw [pcl_succ]
            simp only [List.headD_cons, List.tail_cons, ha, if_true, s_HexToUint_isHex ha]
            rw [if_neg (by simp [hc]), pcl_succ]
            simp only [List.headD_cons, List.tail_cons, hb, if_true, s_HexToUint_isHex hb]
            rw [if_neg (by simp [hc]), pcl_succ]
            simp [hd, hd47]
        · rw [pcl_succ]
          simp only [List.headD_cons, List.tail_cons, ha, if_true, s_HexToUint_isHex ha]
          rw [if_neg (by simp [hc]), pcl_succ]
          simp [hb, hb47]
      · rw [pcl_succ]
        simp [ha, ha47]
  | some ab =>
    rw [hs] at h
    have h2 : (if ab.1.length ≤ 2 ∧ ab.1.all isHexNumber then
        some (hexListVal ab.1, ab.2) else none) = none := h
    by_cases hcond : ab.1.length ≤ 2 ∧ ab.1.all isHexNumber
    case pos => rw [if_pos hcond] at h2; exact absurd h2 (by simp)
    obtain ⟨heq, hnin⟩ := splitAtChar_some hs
    obtain ⟨hs1, r⟩ := ab
    simp only at heq hcond hnin
    subst heq
    rcases hs1 with _ | ⟨x, _ | ⟨y, _ | ⟨z, tl⟩⟩⟩
    · exact absurd (by simp) hcond
    · simp only [List.mem_singleton] at hnin
      have hx47 : ¬ x = 0x2F := fun hh => hnin hh.symm
      have hx : ¬ isHexNumber x = true := fun hx => hcond (by simp [hx])
      rw [pcl_succ]
      simp [hx, hx47]
    · simp only [List.mem_cons, List.mem_singleton, not_or] at hnin
      have hx47 : ¬ x = 0x2F := fun hh => hnin.1 hh.symm
      have hy47 : ¬ y = 0x2F := fun hh => hnin.2.1 hh.symm
      by_cases hx : isHexNumber x = true
      · have hy : ¬ isHexNumber y = true := fun hy => hcond (by simp [hx, hy])
        rw [pcl_succ]
        simp only [List.cons_append, List.headD_cons, List.tail_cons, hx, if_true,
          s_HexToUint_isHex hx]
        rw [if_neg (by simp [hc]), pcl_succ]
        simp [hy, hy47]
      · rw [pcl_succ]
        simp [hx, hx47]
    · simp only [List.mem_cons, not_or] at hnin
      have hx47 : ¬ x = 0x2F := fun hh => hnin.1 hh.symm
      have hy47 : ¬ y = 0x2F := fun hh => hnin.2.1 hh.symm
      have hz47 : ¬ z = 0x2F := fun hh => hnin.2.2.1 hh.symm
      by_cases hx : isHexNumber x = true
      · by_cases hy : isHexNumber y = true
        · by_cases hz : isHexNumber z = true
          · rw [pcl_succ]
            simp only [List.cons_append, List.headD_cons, List.tail_cons, hx, if_true,
              s_HexToUint_isHex hx]
            rw [if_neg (by simp [hc]), pcl_succ]
            simp only [List.cons_append, List.headD_cons, List.tail_cons, hy, if_true,
              s_HexToUint_isHex hy]
            rw [if_neg (by simp [hc]), pcl_succ]
            simp only [List.cons_append, List.headD_cons, List.tail_cons, hz, if_true,
              s_HexToUint_isHex hz]
            rw [if_neg (by simp [hc])]
            rfl
          · rw [pcl_succ]
            simp only [List.cons_append, List.headD_cons, List.tail_cons, hx, if_true,
              s_HexToUint_isHex hx]
            rw [if_neg (by simp [hc]), pcl_succ]
            simp only [List.cons_append, List.headD_cons, List.tail_cons, hy, if_true,
              s_HexToUint_isHex hy]
            rw [if_neg (by simp [hc]), pcl_succ]
            simp [hz, hz47]
        · rw [pcl_succ]
          simp only [List.cons_append, List.headD_cons, List.tail_cons, hx, if_true,
            s_HexToUint_isHex hx]
          rw [if_neg (by simp [hc]), pcl_succ]
          simp [hy, hy47]
      · rw [pcl_succ]
        simp [hx, hx47]

lemma parseCompLoop2_some {rest : List Nat} {b : Nat}
    (h : lastChanParse rest = some b) :
    parseCompLoop 2 3 0 rest = (false, true, b, []) := by
  unfold lastChanParse at h
  by_cases hcond : 1 ≤ rest.length ∧ rest.length ≤ 3 ∧ rest.all isHexNumber
  case neg => rw [if_neg hcond] at h; exact absurd h (by simp)
  rw [if_pos hcond] at h
  obtain rfl : hexListVal rest = b := by simpa using h
  obtain ⟨h1, h2, h3⟩ := hcond
  rcases rest with _ | ⟨x, _ | ⟨y, _ | ⟨z, _ | ⟨w, tl⟩⟩⟩⟩
  · simp at h1
  · simp only [List.all_cons, List.all_nil, Bool.and_true] at h3
    rw [pcl_succ]
    simp only [List.headD_cons, List.tail_cons, h3, if_true, s_HexToUint_isHex h3]
    rw [if_pos (by simp)]
    simp [hexListVal]
  · simp only [List.all_cons, List.all_nil, Bool.and_true, Bool.and_eq_true] at h3
    obtain ⟨hx, hy⟩ := h3
    rw [pcl_succ]
    simp only [List.headD_cons, List.tail_cons, hx, if_true, s_HexToUint_isHex hx]
    rw [if_neg (by simp), pcl_succ]
    simp only [List.headD_cons, List.tail_cons, hy, if_true, s_HexToUint_isHex hy]
    rw [if_pos (by simp)]
    simp [hexListVal]
  · simp only [List.all_cons, List.all_nil, Bool.and_true, Bool.and_eq_true] at h3
    obtain ⟨hx, hy, hz⟩ := h3
    rw [pcl_succ]
    simp only [List.headD_cons, List.tail_cons, hx, if_true, s_HexToUint_isHex hx]
    rw [if_neg (by simp), pcl_succ]
    simp only [List.headD_cons, List.tail_cons, hy, if_true, s_HexToUint_isHex hy]
    rw [if_neg (by simp), pcl_succ]
    simp only [List.headD_cons, List.tail_cons, hz, if_true, s_HexToUint_isHex hz]
    rw [if_pos (by simp)]
    simp [hexListVal]
  · simp at h2

lemma parseCompLoop2_none {rest : List Nat}
    (h : lastChanParse rest = none) :
    (parseCompLoop 2 3 0 rest).2.1 = false := by
  unfold lastChanParse at h
  by_cases hcond : 1 ≤ rest.length ∧ rest.length ≤ 3 ∧ rest.all isHexNumber
  case pos => rw [if_pos hcond] at h; exact absurd h (by simp)
  rcases rest with _ | ⟨x, _ | ⟨y, _ | ⟨z, _ | ⟨w, tl⟩⟩⟩⟩
  · rw [pcl_succ]; simp [isHexNumber]
  · have hx : ¬ isHexNumber x = true := fun hx => hcond (by simp [hx])
    rw [pcl_succ]
    simp only [List.headD_cons, List.tail_cons]
    by_cases hx47 : x = 0x2F
    · rw [if_neg hx, if_pos (by simpa using hx47)]
    · rw [if_neg hx, if_neg (by simpa using hx47)]
  · by_cases hx : isHexNumber x = true
    · have hy : ¬ isHexNumber y = true := fun hy => hcond (by simp [hx, hy])
      rw [pcl_succ]
      simp only [List.headD_cons, List.tail_cons, hx, if_true, s_HexToUint_isHex hx]
      rw [if_neg (by simp), pcl_succ]
      simp only [List.headD_cons, List.tail_cons]
      by_cases hy47 : y = 0x2F
      · rw [if_neg hy, if_pos (by simpa using hy47)]
      · rw [if_neg hy, if_neg (by simpa using hy47)]
    · rw [pcl_succ]
      simp only [List.headD_cons, List.tail_cons]
      by_cases hx47 : x = 0x2F
      · rw [if_neg hx, if_pos (by simpa using hx47)]
      · rw [if_neg hx, if_neg (by simpa using hx47)]
  · by_cases hx : isHexNumber x = true
    · by_cases hy : isHexNumber y = true
      · have hz : ¬ isHexNumber z = true := fun hz => hcond (by simp [hx, hy, hz])
        rw [pcl_succ]
        simp only [List.headD_cons, List.tail_cons, hx, if_true, s_HexToUint_isHex hx]
        rw [if_neg (by simp), pcl_succ]
        simp only [List.headD_cons, List.tail_cons, hy, if_true, s_HexToUint_isHex hy]
        rw [if_neg (by simp), pcl_succ]
        simp only [List.headD_cons, List.tail_cons]
        by_cases hz47 : z = 0x2F
        · rw [if_neg hz, if_pos (by simpa using hz47)]
        · rw [if_neg hz, if_neg (by simpa using hz47)]
      · rw [pcl_succ]
        simp only [List.headD_cons, List.tail_cons, hx, if_true, s_HexToUint_isHex hx]
        rw [if_neg (by simp), pcl_succ]
        simp only [List.headD_cons, List.tail_cons]
        by_cases hy47 : y = 0x2F
        · rw [if_neg hy, if_pos (by simpa using hy47)]
        · rw [if_neg hy, if_neg (by simpa using hy47)]
    · rw [pcl_succ]
      simp only [List.headD_cons, List.tail_cons]
      by_cases hx47 : x = 0x2F
      · rw [if_neg hx, if_pos (by simpa using hx47)]
      · rw [if_neg hx, if_neg (by simpa using hx47)]
  · by_cases hx : isHexNumber x = true
    · by_cases hy : isHexNumber y = true
      · by_cases hz : isHexNumber z = true
        · rw [pcl_succ]
          simp only [List.headD_cons, List.tail_cons, hx, if_true, s_HexToUint_isHex hx]
          rw [if_neg (by simp), pcl_succ]
          simp only [List.headD_cons, List.tail_cons, hy, if_true, s_HexToUint_isHex hy]
          rw [if_neg (by simp), pcl_succ]
          simp only [List.headD_cons, List.tail_cons, hz, if_true, s_HexToUint_isHex hz]
          rw [if_neg (by simp)]
          rfl
        · rw [pcl_succ]
          simp only [List.headD_cons, List.tail_cons, hx, if_true, s_HexToUint_isHex hx]
          rw [if_neg (by simp), pcl_succ]
          simp only [List.headD_cons, List.tail_cons, hy, if_true, s_HexToUint_isHex hy]
          rw [if_neg (by simp), pcl_succ]
          simp only [List.headD_cons, List.tail_cons]
          by_cases hz47 : z = 0x2F
          · rw [if_neg hz, if_pos (by simpa using hz47)]
          · rw [if_neg hz, if_neg (by simpa using hz47)]
      · rw [pcl_succ]
        simp only [List.headD_cons, List.tail_cons, hx, if_true, s_HexToUint_isHex hx]
        rw [if_neg (by simp), pcl_succ]
        simp only [List.headD_cons, List.tail_cons]
        by_cases hy47 : y = 0x2F
        · rw [if_neg hy, if_pos (by simpa using hy47)]
        · rw [if_neg hy, if_neg (by simpa using hy47)]
    · rw [pcl_succ]
      simp only [List.headD_cons, List.tail_cons]
      by_cases hx47 : x = 0x2F
      · rw [if_neg hx, if_pos (by simpa using hx47)]
      · rw [if_neg hx, if_neg (by simpa using hx47)]

lemma chanParse_nil : chanParse [] = none := rfl

lemma lastChanParse_nil : lastChanParse [] = none := rfl

lemma channels_eq (rest : List Nat) :
    (if (parseCompsLoop 3 0 rest).1 then
       some (RGBw ((parseCompsLoop 3 0 rest).2.getD 0 0 % 256)
         ((parseCompsLoop 3 0 rest).2.getD 1 0 % 256)
         ((parseCompsLoop 3 0 rest).2.getD 2 0 % 256))
     else none)
    = (match chanParse rest with
       | some rp =>
         match chanParse rp.2 with
         | some gp =>
           match lastChanParse gp.2 with
           | some b => some (RGBw (rp.1 % 256) (gp.1 % 256) (b % 256))
           | none => none
         | none => none
       | none => none) := by
  cases h0 : chanParse rest with
  | none =>
    have hf := parseCompLoop_chan_none (c := 0) (by decide) h0
    have hv := parseCompLoop_valid_ne2 (c := 0) (by decide) 3 0 rest
    rw [pcls_succ]
    simp [hf, hv]
  | some rp =>
    have h0eq := parseCompLoop_chan_some (c := 0) (by decide) h0
    rw [pcls_succ, h0eq]
    by_cases hrp2 : rp.2.isEmpty
    · have hnil : rp.2 = [] := by simpa using hrp2
      simp [hrp2, hnil, chanParse_nil]
    · cases h1 : chanParse rp.2 with
      | none =>
        have hf1 := parseCompLoop_chan_none (c := 1) (by decide) h1
        have hv1 := parseCompLoop_valid_ne2 (c := 1) (by decide) 3 0 rp.2
        rw [pcls_succ]
        simp [hrp2, hf1, hv1, h1]
      | some gp =>
        have h1eq := parseCompLoop_chan_some (c := 1) (by decide) h1
        rw [pcls_succ, h1eq]
        by_cases hgp2 : gp.2.isEmpty
        · have hnil : gp.2 = [] := by simpa using hgp2
          simp [hrp2, hgp2, hnil, h1, lastChanParse_nil]
        · cases h2 : lastChanParse gp.2 with
          | none =>
            have hn2 := parseCompLoop2_none h2
            rw [pcls_succ]
            simp [hrp2, hgp2, hn2, h1, h2]
          | some b =>
            have h2eq := parseCompLoop2_some h2
            rw [pcls_succ, h2eq]
            simp [hrp2, hgp2, h1, h2]

/-- C5 (amended): the colour spec parser accepts exactly the strings
`rgb:R/G/B` of total length 9-12 where the red and green channels are
0-2 case-insensitive hex digits each (an empty channel parses as 0) and
the blue channel is 1-3 hex digits, and yields the word with (the low
byte of) red in the low byte, green in the middle and blue in the high
byte; every other string fails. -/
theorem color_spec_parser_exact (s : List Nat) :
    s_ParseColorSpec s = amendedColorGrammar s := by
  unfold s_ParseColorSpec amendedColorGrammar
  by_cases hlen : s.length < 9 ∨ 12 < s.length
  · rw [if_pos hlen, if_pos hlen]
  rw [if_neg hlen, if_neg hlen]
  by_cases hhead : s.getD 0 0 = 0x72 ∧ s.getD 1 0 = 0x67 ∧ s.getD 2 0 = 0x62 ∧
      s.getD 3 0 = 0x3A
  · rw [if_pos hhead, if_pos hhead]
    exact channels_eq (s.drop 4)
  · rw [if_neg hhead, if_neg hhead]

/-- C5 (counterexample): the string `rgb:/1/111` is malformed for the
claimed grammar `rgb:H[H]/H[H]/H[H]` (empty red channel, three-digit
blue channel), yet `s_ParseColorSpec` accepts it, with the blue
channel's value reduced mod 256. -/
theorem color_spec_accepts_beyond_claimed_grammar :
    origColorGrammar [0x72, 0x67, 0x62, 0x3A, 0x2F, 0x31, 0x2F, 0x31, 0x31, 0x31] = none
    ∧ s_ParseColorSpec [0x72, 0x67, 0x62, 0x3A, 0x2F, 0x31, 0x2F, 0x31, 0x31, 0x31]
      = some 1114368 := by
  constructor <;> rfl

lemma oil_succ (fuel i acc : Nat) (rest : List Nat) :
    oscIndexLoop (fuel + 1) i acc rest =
      (if isNumber (rest.headD 0) then
         oscIndexLoop fuel (i + 1) (acc * 10 + (rest.headD 0 - 0x30)) rest.tail
       else if rest.headD 0 = 0x3B ∧ 0 < i then some (acc, rest.tail)
       else none) := rfl

lemma oscIndexLoop_eq (s : List Nat) :
    oscIndexLoop 4 0 0 s =
      (match splitAtChar 0x3B s with
       | some dr =>
         if 1 ≤ dr.1.length ∧ dr.1.length ≤ 3 ∧ dr.1.all isNumber then
           some (decListVal dr.1, dr.2)
         else none
       | none => none) := by
  cases hs : splitAtChar 0x3B s with
  | none =>
    have hnot : 0x3B ∉ s := splitAtChar_none hs
    rcases s with _ | ⟨a, _ | ⟨b, _ | ⟨c, _ | ⟨d, tl⟩⟩⟩⟩
    · rw [oil_succ]; simp [isNumber]
    · simp only [List.mem_singleton] at hnot
      have ha : ¬ a = 0x3B := fun hh => hnot hh.symm
      by_cases han : isNumber a = true
      · rw [oil_succ]
        simp only [List.headD_cons, List.tail_cons, han, if_true]
        rw [oil_succ]
        simp [isNumber]
      · rw [oil_succ]
        simp [han, ha]
    · simp only [List.mem_cons, List.mem_singleton, not_or] at hnot
      have ha : ¬ a = 0x3B := fun hh => hnot.1 hh.symm
      have hb : ¬ b = 0x3B := fun hh => hnot.2.1 hh.symm
      by_cases han : isNumber a = true
      · by_cases hbn : isNumber b = true
        · rw [oil_succ]
          simp only [List.headD_cons, List.tail_cons, han, if_true]
          rw [oil_succ]
          simp only [List.headD_cons, List.tail_cons, hbn, if_true]
          rw [oil_succ]
          simp [isNumber]
        · rw [oil_succ]
          simp only [List.headD_cons, List.tail_cons, han, if_true]
          rw [oil_succ]
          simp [hbn, hb]
      · rw [oil_succ]
        simp [han, ha]
    · simp only [List.mem_cons, List.mem_singleton, not_or] at hnot
      have ha : ¬ a = 0x3B := fun hh => hnot.1 hh.symm
      have hb : ¬ b = 0x3B := fun hh => hnot.2.1 hh.symm
      have hc2 : ¬ c = 0x3B := fun hh => hnot.2.2.1 hh.symm
      by_cases han : isNumber a = true
      · by_cases hbn : isNumber b = true
        · by_cases hcn : isNumber c = true
          · rw [oil_succ]
            simp only [List.headD_cons, List.tail_cons, han, if_true]
            rw [oil_succ]
            simp only [List.headD_cons, List.tail_cons, hbn, if_true]
            rw [oil_succ]
            simp only [List.headD_cons, List.tail_cons, hcn, if_true]
            rw [oil_succ]
            simp [isNumber]
          · rw [oil_succ]
            simp only [List.headD_cons, List.tail_cons, han, if_true]
            rw [oil_succ]
            simp only [List.headD_cons, List.tail_cons, hbn, if_true]
            rw [oil_succ]
            simp [hcn, hc2]
        · rw [oil_succ]
          simp only [List.headD_cons, List.tail_cons, han, if_true]
          rw [oil_succ]
          simp [hbn, hb]
      · rw [oil_succ]
        simp [han, ha]
    · simp only [List.mem_cons, not_or] at hnot
      have ha : ¬ a = 0x3B := fun hh => hnot.1 hh.symm
      have hb : ¬ b = 0x3B := fun hh => hnot.2.1 hh.symm
      have hc2 : ¬ c = 0x3B := fun hh => hnot.2.2.1 hh.symm
      have hd : ¬ d = 0x3B := fun hh => hnot.2.2.2.1 hh.symm
      by_cases han : isNumber a = true
      · by_cases hbn : isNumber b = true
        · by_cases hcn : isNumber c = true
          · by_cases hdn : isNumber d = true
            · rw [oil_succ]
              simp only [List.headD_cons, List.tail_cons, han, if_true]
              rw [oil_succ]
              simp only [List.headD_cons, List.tail_cons, hbn, if_true]
              rw [oil_succ]
              simp only [List.headD_cons, List.tail_cons, hcn, if_true]
              rw [oil_succ]
              simp only [List.headD_cons, List.tail_cons, hdn, if_true]
              rfl
            · rw [oil_succ]
              simp only [List.headD_cons, List.tail_cons, han, if_true]
              rw [oil_succ]
              simp only [List.headD_cons, List.tail_cons, hbn, if_true]
              rw [oil_succ]
              simp only [List.headD_cons, List.tail_cons, hcn, if_true]
              rw [oil_succ]
              simp [hdn, hd]
          · rw [oil_succ]
            simp only [List.headD_cons, List.tail_cons, han, if_true]
            rw [oil_succ]
            simp only [List.headD_cons, List.tail_cons, hbn, if_true]
            rw [oil_succ]
            simp [hcn, hc2]
        · rw [oil_succ]
          simp only [List.headD_cons, List.tail_cons, han, if_true]
          rw [oil_succ]
          simp [hbn, hb]
      · rw [oil_succ]
        simp [han, ha]
  | some dr =>
    obtain ⟨heq, hnin⟩ := splitAtChar_some hs
    obtain ⟨ds, r⟩ := dr
    simp only at heq hnin ⊢
    subst heq
    rcases ds with _ | ⟨a, _ | ⟨b, _ | ⟨c, _ | ⟨d, tl⟩⟩⟩⟩
    · rw [oil_succ]
      simp [isNumber]
    · simp only [List.mem_singleton] at hnin
      by_cases han : isNumber a = true
      · rw [oil_succ]
        simp only [List.cons_append, List.nil_append, List.headD_cons, List.tail_cons,
          han, if_true]
        rw [oil_succ]
        simp only [isNumber, Bool.and_eq_true, decide_eq_true_eq] at han
        simp [isNumber, han, decListVal]
      · rw [oil_succ]
        have ha : ¬ a = 0x3B := fun hh => hnin hh.symm
        simp [han, ha]
    · simp only [List.mem_cons, List.mem_singleton, not_or] at hnin
      by_cases han : isNumber a = true
      · by_cases hbn : isNumber b = true
        · rw [oil_succ]
          simp only [List.cons_append, List.nil_append, List.headD_cons, List.tail_cons,
            han, if_true]
          rw [oil_succ]
          simp only [List.cons_append, List.nil_append, List.headD_cons, List.tail_cons,
            hbn, if_true]
          rw [oil_succ]
          simp only [isNumber, Bool.and_eq_true, decide_eq_true_eq] at han hbn
          simp [isNumber, han, hbn, decListVal]
        · rw [oil_succ]
          simp only [List.cons_append, List.nil_append, List.headD_cons, List.tail_cons,
            han, if_true]
          rw [oil_succ]
          have hb : ¬ b = 0x3B := fun hh => hnin.2.1 hh.symm
          simp [hbn, hb]
      · rw [oil_succ]
        have ha : ¬ a = 0x3B := fun hh => hnin.1 hh.symm
        simp [han, ha]
    · simp only [List.mem_cons, List.mem_singleton, not_or] at hnin
      by_cases han : isNumber a = true
      · by_cases hbn : isNumber b = true
        · by_cases hcn : isNumber c = true
          · rw [oil_succ]
            simp only [List.cons_append, List.nil_append, List.headD_cons,
              List.tail_cons, han, if_true]
            rw [oil_succ]
            simp only [List.cons_append, List.nil_append, List.headD_cons,
              List.tail_cons, hbn, if_true]
            rw [oil_succ]
            simp only [List.cons_append, List.nil_append, List.headD_cons,
              List.tail_cons, hcn, if_true]
            rw [oil_succ]
            simp only [isNumber, Bool.and_eq_true, decide_eq_true_eq] at han hbn hcn
            simp [isNumber, han, hbn, hcn, decListVal]
          · rw [oil_succ]
            simp only [List.cons_append, List.nil_append, List.headD_cons,
              List.tail_cons, han, if_true]
            rw [oil_succ]
            simp only [List.cons_append, List.nil_append, List.headD_cons,
              List.tail_cons, hbn, if_true]
            rw [oil_succ]
            have hc3 : ¬ c = 0x3B := fun hh => hnin.2.2.1 hh.symm
            simp [hcn, hc3]
        · rw [oil_succ]
          simp only [List.cons_append, List.nil_append, List.headD_cons,
            List.tail_cons, han, if_true]
          rw [oil_succ]
          have hb : ¬ b = 0x3B := fun hh => hnin.2.1 hh.symm
          simp [hbn, hb]
      · rw [oil_succ]
        have ha : ¬ a = 0x3B := fun hh => hnin.1 hh.symm
        simp [han, ha]
    · simp only [List.mem_cons, not_or] at hnin
      by_cases han : isNumber a = true
      · by_cases hbn : isNumber b = true
        · by_cases hcn : isNumber c = true
          · by_cases hdn : isNumber d = true
            · rw [oil_succ]
              simp only [List.cons_append, List.nil_append, List.headD_cons,
                List.tail_cons, han, if_true]
              rw [oil_succ]
              simp only [List.cons_append, List.nil_append, List.headD_cons,
                List.tail_cons, hbn, if_true]
              rw [oil_succ]
              simp only [List.cons_append, List.nil_append, List.headD_cons,
                List.tail_cons, hcn, if_true]
              rw [oil_succ]
              simp only [List.cons_append, List.nil_append, List.headD_cons,
                List.tail_cons, hdn, if_true]
              rw [if_neg (by simp)]
              rfl
            · rw [oil_succ]
              simp only [List.cons_append, List.nil_append, List.headD_cons,
                List.tail_cons, han, if_true]
              rw [oil_succ]
              simp only [List.cons_append, List.nil_append, List.headD_cons,
                List.tail_cons, hbn, if_true]
              rw [oil_succ]
              simp only [List.cons_append, List.nil_append, List.headD_cons,
                List.tail_cons, hcn, if_true]
              rw [oil_succ]
              have hd2 : ¬ d = 0x3B := fun hh => hnin.2.2.2.1 hh.symm
              simp [hdn, hd2]
          · rw [oil_succ]
            simp only [List.cons_append, List.nil_append, List.headD_cons,
              List.tail_cons, han, if_true]
            rw [oil_succ]
            simp only [List.cons_append, List.nil_append, List.headD_cons,
              List.tail_cons, hbn, if_true]
            rw [oil_succ]
            have hc3 : ¬ c = 0x3B := fun hh => hnin.2.2.1 hh.symm
            simp [hcn, hc3]
        · rw [oil_succ]
          simp only [List.cons_append, List.nil_append, List.headD_cons,
            List.tail_cons, han, if_true]
          rw [oil_succ]
          have hb : ¬ b = 0x3B := fun hh => hnin.2.1 hh.symm
          simp [hbn, hb]
      · rw [oil_succ]
        have ha : ¬ a = 0x3B := fun hh => hnin.1 hh.symm
        simp [han, ha]

lemma getOscSetColorTable_eq_format (s : List Nat) :
    _GetOscSetColorTable s = oscSetColorTableFormat s := by
  unfold _GetOscSetColorTable oscSetColorTableFormat
  by_cases hlen : s.length < 11 ∨ 16 < s.length
  · rw [if_pos hlen, if_pos hlen]
  rw [if_neg hlen, if_neg hlen, oscIndexLoop_eq]
  cases hs : splitAtChar 0x3B s with
  | none => rfl
  | some dr =>
    by_cases hcond : 1 ≤ dr.1.length ∧ dr.1.length ≤ 3 ∧ dr.1.all isNumber
    · simp only [if_pos hcond]
    · simp only [if_neg hcond]

lemma isNumber_range {a : Nat} (h : isNumber a = true) : 0x30 ≤ a ∧ a ≤ 0x39 := by
  simpa [isNumber] using h

lemma decListVal_le_999 {ds : List Nat} (hlen : ds.length ≤ 3)
    (hnum : ds.all isNumber = true) : decListVal ds ≤ 999 := by
  rcases ds with _ | ⟨a, _ | ⟨b, _ | ⟨c, _ | ⟨d, tl⟩⟩⟩⟩
  · simp [decListVal]
  · simp only [List.all_cons, List.all_nil, Bool.and_true] at hnum
    obtain ⟨h1, h2⟩ := isNumber_range hnum
    simp only [decListVal, List.foldl]
    omega
  · simp only [List.all_cons, List.all_nil, Bool.and_true, Bool.and_eq_true] at hnum
    obtain ⟨ha, hb⟩ := hnum
    obtain ⟨ha1, ha2⟩ := isNumber_range ha
    obtain ⟨hb1, hb2⟩ := isNumber_range hb
    simp only [decListVal, List.foldl]
    omega
  · simp only [List.all_cons, List.all_nil, Bool.and_true, Bool.and_eq_true] at hnum
    obtain ⟨ha, hb, hc⟩ := hnum
    obtain ⟨ha1, ha2⟩ := isNumber_range ha
    obtain ⟨hb1, hb2⟩ := isNumber_range hb
    obtain ⟨hc1, hc2⟩ := isNumber_range hc
    simp only [decListVal, List.foldl]
    omega
  · simp at hlen

lemma oscSetColorTableFormat_bound {s : List Nat} {p : Nat × Nat}
    (h : oscSetColorTableFormat s = some p) : p.1 ≤ 999 := by
  unfold oscSetColorTableFormat at h
  by_cases hlen : s.length < 11 ∨ 16 < s.length
  · rw [if_pos hlen] at h; exact absurd h (by simp)
  rw [if_neg hlen] at h
  cases hs : splitAtChar 0x3B s with
  | none => rw [hs] at h; exact absurd h (by simp)
  | some dr =>
    rw [hs] at h
    have h2 : (if 1 ≤ dr.1.length ∧ dr.1.length ≤ 3 ∧ dr.1.all isNumber then
        (s_ParseColorSpec dr.2).map fun c => (decListVal dr.1, c) else none) = some p := h
    by_cases hcond : 1 ≤ dr.1.length ∧ dr.1.length ≤ 3 ∧ dr.1.all isNumber
    case neg => rw [if_neg hcond] at h2; exact absurd h2 (by simp)
    rw [if_pos hcond] at h2
    cases hc : s_ParseColorSpec dr.2 with
    | none => rw [hc] at h2; exact absurd h2 (by simp)
    | some color =>
      rw [hc] at h2
      obtain rfl : (decListVal dr.1, color) = p := by simpa using h2
      exact decListVal_le_999 hcond.2.1 hcond.2.2

/-- C6 (amended): an OSC 4 payload is accepted exactly when it has the
form `<index>;<colour spec>` with a 1-3 decimal digit index and total
length 11-16; the accepted table index passed to SetColorTableEntry is
at most 999 (not 255: a three-digit index is forwarded unclamped), and
any payload outside the format is rejected with no dispatch. -/
theorem osc4_accepts_index_up_to_999 (e : Engine) (w : Nat) (s : List Nat) :
    _GetOscSetColorTable s = oscSetColorTableFormat s
    ∧ (match _GetOscSetColorTable s with
       | some p => p.1 ≤ 999
       | none => True)
    ∧ (ActionOscDispatch e w OscActionCodes.SetColor s).calls
      = (match _GetOscSetColorTable s with
         | some p => [DCall.SetColorTableEntry p.1 p.2]
         | none => []) := by
  refine ⟨getOscSetColorTable_eq_format s, ?_, ?_⟩
  · cases hg : _GetOscSetColorTable s with
    | none => exact trivial
    | some p =>
      exact oscSetColorTableFormat_bound ((getOscSetColorTable_eq_format s) ▸ hg)
  · cases hg : _GetOscSetColorTable s with
    | none => simp [ActionOscDispatch, oscCore, oscFill, hg]
    | some p => simp [ActionOscDispatch, oscCore, oscFill, oscAction, call1, hg]

/-- C6 (counterexample): the in-format payload `999;rgb:1/1/11` is
accepted and SetColorTableEntry is called with table index 999, which is
outside the claimed range 0-255. -/
theorem osc4_index_255_exceeded :
    _GetOscSetColorTable
      [0x39, 0x39, 0x39, 0x3B, 0x72, 0x67, 0x62, 0x3A, 0x31, 0x2F, 0x31, 0x2F, 0x31, 0x31]
      = some (999, 1114369)
    ∧ ¬ (999 : Nat) ≤ 255
    ∧ (ActionOscDispatch ⟨fun _ => true, none, none, 0⟩ 7 OscActionCodes.SetColor
        [0x39, 0x39, 0x39, 0x3B, 0x72, 0x67, 0x62, 0x3A, 0x31, 0x2F, 0x31, 0x2F, 0x31, 0x31]).calls
      = [DCall.SetColorTableEntry 999 1114369] :=
  ⟨rfl, by decide, rfl⟩
